import Mathlib

/-!
# kanmu/gocon2025-ctf, `main.go`

A shallow embedding of the four HTTP handlers of `main.go` (login, dashboard,
recipe detail / image, download) and of the helpers they call.

* Go strings are Lean strings, `[]byte` values are lists of bytes.
* The embedded assets (`//go:embed assets/...`) and the behaviour of the packages
  the program imports (`html/template`, `filesql`, the file system) are fields of
  `Env`: the handlers are functions of the environment, the response writer and
  the request.
* The response writer follows `net/http` as observed through
  `httptest.ResponseRecorder`: a live header map, a status code that is fixed by
  the first `WriteHeader` (or the first `Write`), the header snapshot taken at
  that moment, and the body.
-/

namespace Gocon2025CTF

/-! ## Byte strings -/

/-- A Go byte slice. -/
abbrev Bytes := List UInt8

/-- The bytes of a Go string, `[]byte(s)`: its UTF-8 encoding. -/
def goBytes (s : String) : Bytes := s.data.flatMap String.utf8EncodeChar

/-! ## Types of `main.go` -/

/-- Go `LoginData`. -/
structure LoginData where
  Error : String
deriving DecidableEq, Repr

/-- Go `User`. -/
structure User where
  Username : String
  Password : String
deriving DecidableEq, Repr

/-- Go `kanmuUser`. -/
def kanmuUser : String := "kanmu"

/-- Go `Recipe`. -/
structure Recipe where
  ID : Int
  Name : String
  Description : String
  Emoji : String
  Image : Bytes
  ContentType : String
  Steps : List String
deriving DecidableEq, Repr

/-- Go `DashboardRecipe`. -/
structure DashboardRecipe where
  ID : Int
  Name : String
  Description : String
  Emoji : String
deriving DecidableEq, Repr

/-- Go `DashboardData`. -/
structure DashboardData where
  Title : String
  WelcomeMessage : String
  Recipes : List DashboardRecipe
deriving DecidableEq, Repr

/-- Go `RecipeDetailData`. -/
structure RecipeDetailData where
  ID : Int
  Name : String
  Description : String
  Emoji : String
  Steps : List String
  ShowDownload : Bool
deriving DecidableEq, Repr

/-- Go `flagFilename`. -/
def flagFilename : String := "flag.zip"

/-- The `data any` argument of `renderTemplate`: the three types the handlers pass. -/
inductive TemplateData where
  | login (d : LoginData)
  | dashboard (d : DashboardData)
  | recipe (d : RecipeDetailData)
deriving DecidableEq, Repr

/-! ## The environment: assets and imported packages -/

/-- The result set of a query, as `loginHandler` reads it: for every row that
`rows.Next()` delivers the outcome of `rows.Scan(&user.Username, &user.Password)`
(`none` when Scan returns an error), and whether `rows.Err()` is non-nil once
`Next` has returned false. -/
structure Rows where
  scans : List (Option User)
  err : Bool
deriving DecidableEq, Repr

/-- A `*sql.DB`: `QueryContext` answers a query text with a result set, or with
`none` when it returns an error. -/
structure Database where
  QueryContext : String → Option Rows

/-- What `main.go` takes from outside its own text: the embedded assets, the file
system and `filesql` (used by `createTempDatabase`), and `html/template`.

`templateParse name text` tells whether `template.New(name).Parse(text)` succeeds;
`templateExecute name text data` gives the chunks that `Execute` writes, in order,
and whether it then returns an error. -/
structure Env where
  usersCSV : Bytes
  loginHTML : Bytes
  notFoundHTML : Bytes
  Ingredients : Bytes
  dashboardHTML : Bytes
  recipeDetailHTML : Bytes
  gyozaImage : Bytes
  ikuraPotatoImage : Bytes
  pizzaImage : Bytes
  sashimiImage : Bytes
  steakSauceImage : Bytes
  writeFile : Bytes → Bool
  filesqlOpen : Bytes → Option Database
  templateParse : String → Bytes → Bool
  templateExecute : String → Bytes → TemplateData → List Bytes × Bool

/-! ## `net/http`: requests -/

/-- The parts of `*http.Request` the handlers read: the method, `r.URL.Path`, the
parsed query `r.URL.Query()`, the parsed url-encoded form of the body
(`r.PostForm`), and the cookies of the `Cookie` header as (name, value) pairs, each
in order of appearance. -/
structure Request where
  Method : String
  Path : String
  Query : List (String × String)
  PostForm : List (String × String)
  Cookies : List (String × String)
deriving DecidableEq, Repr

/-- Go `r.Cookie(name)`: the value of the first cookie of that name, `none` for
`ErrNoCookie`. -/
def Request.Cookie (r : Request) (name : String) : Option String :=
  r.Cookies.lookup name

/-- Go `r.URL.Query().Get(key)`: the first value of the key, or the empty string. -/
def Request.QueryGet (r : Request) (key : String) : String :=
  (r.Query.lookup key).getD ""

/-- Go `r.FormValue(key)`: the first value of the key, body values before query
values, or the empty string. -/
def Request.FormValue (r : Request) (key : String) : String :=
  ((r.PostForm ++ r.Query).lookup key).getD ""

/-! ## `net/http`: the response writer -/

/-- A header map with its entries in insertion order. -/
abbrev Header := List (String × String)

/-- Go `h.Set(key, value)`. -/
def Header.Set (h : Header) (key value : String) : Header :=
  h.filter (fun kv => kv.1 != key) ++ [(key, value)]

/-- Go `h.Add(key, value)`. -/
def Header.Add (h : Header) (key value : String) : Header :=
  h ++ [(key, value)]

/-- Go `h.Del(key)`. -/
def Header.Del (h : Header) (key : String) : Header :=
  h.filter (fun kv => kv.1 != key)

/-- Go `h.Get(key)`: the first value of the key, or the empty string. -/
def Header.Get (h : Header) (key : String) : String :=
  (h.lookup key).getD ""

/-- Go `h.Values(key)`: all values of the key. -/
def Header.Values (h : Header) (key : String) : List String :=
  (h.filter (fun kv => kv.1 == key)).map Prod.snd

/-- Go `_, ok := h[key]`. -/
def Header.Has (h : Header) (key : String) : Bool :=
  (h.lookup key).isSome

/-- The state of an `http.ResponseWriter`: `header` is the live map `w.Header()`,
`Code` the status (200 until `WriteHeader` fixes another one), `sent` the headers
as they stood when the status was fixed, `Body` the bytes written. -/
structure ResponseWriter where
  header : Header := []
  wroteHeader : Bool := false
  Code : Nat := 200
  sent : Header := []
  Body : Bytes := []
deriving DecidableEq, Repr

/-- The writer a handler is started with, `httptest.NewRecorder()`. -/
def newRecorder : ResponseWriter := {}

/-- Change the live header map, `w.Header().Set(...)` and the like. -/
def ResponseWriter.mapHeader (w : ResponseWriter) (f : Header → Header) : ResponseWriter :=
  { w with header := f w.header }

/-- Go `w.WriteHeader(code)`: the first call fixes the status and the headers, a
later call changes nothing. -/
def ResponseWriter.WriteHeader (w : ResponseWriter) (code : Nat) : ResponseWriter :=
  if w.wroteHeader then w
  else { w with wroteHeader := true, Code := code, sent := w.header }

/-- Go `w.Write(b)`: fixes status 200 when no status was written yet, then appends
to the body. Every Write of `main.go` comes after Content-Type was set, so no
content type is sniffed; a Write does not fail. -/
def ResponseWriter.Write (w : ResponseWriter) (b : Bytes) : ResponseWriter :=
  let w1 := w.WriteHeader 200
  { w1 with Body := w1.Body ++ b }

/-- The headers the client receives: those fixed with the status, or the live map
when the handler returned without writing. -/
def ResponseWriter.ResultHeader (w : ResponseWriter) : Header :=
  if w.wroteHeader then w.sent else w.header

/-- Go `http.StatusText` for the codes used here. -/
def httpStatusText (code : Nat) : String :=
  if code = 200 then "OK"
  else if code = 302 then "Found"
  else if code = 404 then "Not Found"
  else if code = 500 then "Internal Server Error"
  else ""

/-- The `htmlEscape` of `net/http`: replaces the five characters & < > double quote
and apostrophe. -/
def htmlEscape (s : String) : String :=
  String.join (s.data.map fun c =>
    if c = '&' then "&amp;"
    else if c = '<' then "&lt;"
    else if c = '>' then "&gt;"
    else if c = '"' then "&#34;"
    else if c = '\'' then "&#39;"
    else String.singleton c)

/-- Go `http.Redirect(w, r, url, code)` for a `url` that starts with a slash and
is a clean path without query or non-ASCII characters (main.go passes "/" and
"/dashboard"), which the cleaning steps of `Redirect` leave unchanged. -/
def httpRedirect (w : ResponseWriter) (r : Request) (url : String) (code : Nat) :
    ResponseWriter :=
  let hadCT := w.header.Has "Content-Type"
  let w1 := w.mapHeader fun h => h.Set "Location" url
  let w2 :=
    if !hadCT && (r.Method == "GET" || r.Method == "HEAD") then
      w1.mapHeader fun h => h.Set "Content-Type" "text/html; charset=utf-8"
    else w1
  let w3 := w2.WriteHeader code
  if !hadCT && r.Method == "GET" then
    w3.Write (goBytes ("<a href=\"" ++ htmlEscape url ++ "\">" ++ httpStatusText code
      ++ "</a>.\n" ++ "\n"))
  else w3

/-- Go `http.Error(w, error, code)`. -/
def httpError (w : ResponseWriter) (error : String) (code : Nat) : ResponseWriter :=
  let w1 := w.mapHeader fun h =>
    ((h.Del "Content-Length").Set "Content-Type" "text/plain; charset=utf-8").Set
      "X-Content-Type-Options" "nosniff"
  (w1.WriteHeader code).Write (goBytes (error ++ "\n"))

/-- The `validCookieValueByte` of `net/http`, on characters: a character outside
ASCII is made of bytes that are all invalid. -/
def validCookieValueByte (c : Char) : Bool :=
  0x20 ≤ c.toNat && c.toNat < 0x7f && c != '"' && c != ';' && c != '\\'

/-- The `sanitizeCookieValue` of `net/http`: invalid bytes are dropped, and a
value with a space or a comma is put between double quotes. -/
def sanitizeCookieValue (v : String) : String :=
  let v1 : String := ⟨v.data.filter validCookieValueByte⟩
  if v1.data.any (fun c => c == ' ' || c == ',') then "\"" ++ v1 ++ "\"" else v1

/-- Go `(&http.Cookie{Name: "user", Value: value, Path: "/"}).String()`, the one
cookie main.go sets: the name and the path are valid as they are. -/
def userCookieString (value : String) : String :=
  "user=" ++ sanitizeCookieValue value ++ "; Path=/"

/-- Go `http.SetCookie(w, &http.Cookie{Name: "user", Value: value, Path: "/"})`. -/
def httpSetUserCookie (w : ResponseWriter) (value : String) : ResponseWriter :=
  w.mapHeader fun h => h.Add "Set-Cookie" (userCookieString value)

/-! ## `strings` and `strconv` -/

/-- Go `strings.Contains(s, substr)`. -/
def stringsContains (s substr : String) : Bool :=
  decide (substr.data <:+: s.data)

/-- Go `strings.TrimPrefix(s, p)`. -/
def stringsTrimPrefix (s p : String) : String :=
  if p.data.isPrefixOf s.data then ⟨s.data.drop p.data.length⟩ else s

/-- The decimal value of a non-empty run of ASCII digits, `none` when a character
is not a digit. -/
def parseDigits : List Char → Nat → Option Nat
  | [], n => some n
  | c :: cs, n =>
    if '0' ≤ c ∧ c ≤ '9' then parseDigits cs (n * 10 + (c.toNat - '0'.toNat)) else none

/-- Go `strconv.Atoi(s)` with a 64-bit `int`: an optional sign, then at least one
decimal digit and nothing else; `none` for a syntax error and for a value outside
the range of `int`. -/
def strconvAtoi (s : String) : Option Int :=
  match s.data with
  | [] => none
  | c :: cs =>
    let neg := c = '-'
    let ds := if c = '-' ∨ c = '+' then cs else c :: cs
    if ds = [] then none
    else
      match parseDigits ds 0 with
      | none => none
      | some n =>
        if neg then (if n ≤ 2 ^ 63 then some (-(n : Int)) else none)
        else (if n < 2 ^ 63 then some (n : Int) else none)

/-- Go `strconv.Itoa(n)` for a length. -/
def strconvItoa (n : Nat) : String := toString n

/-! ## Helpers of `main.go` -/

/-- Go `renderTemplate`: a parse error is returned before anything is touched;
otherwise Content-Type is set and the template is executed onto `w`. The second
component tells whether an error is returned. -/
def renderTemplate (env : Env) (w : ResponseWriter) (templateData : Bytes)
    (data : TemplateData) (templateName : String) : ResponseWriter × Bool :=
  if !env.templateParse templateName templateData then (w, true)
  else
    let w1 := w.mapHeader fun h => h.Set "Content-Type" "text/html; charset=utf-8"
    let out := env.templateExecute templateName templateData data
    (out.1.foldl ResponseWriter.Write w1, out.2)

/-- Go `requireAuth`: the writer afterwards, the cookie value and whether the
request is authenticated. -/
def requireAuth (w : ResponseWriter) (r : Request) : ResponseWriter × String × Bool :=
  match r.Cookie "user" with
  | none => (httpRedirect w r "/" 302, "", false)
  | some value => (w, value, true)

/-- Go `createTempDatabase`: write `usersCSV` to the temporary file and open it
with filesql; `none` when either step fails. -/
def createTempDatabase (env : Env) : Option Database :=
  if env.writeFile env.usersCSV then env.filesqlOpen env.usersCSV else none

/-- Go `recipeDatabase`, the `map[int]*Recipe` literal, as its list of entries. -/
def recipeDatabase (env : Env) : List (Int × Recipe) :=
  [ (2, {
      ID := 2
      Name := "ぎょうざ"
      Description := "パリッとした食感が楽しめる手作りぎょうざ。キャベツとニラの旨みが詰まった定番の中華料理です。"
      Emoji := "🥟"
      Image := env.gyozaImage
      ContentType := "image/jpeg"
      Steps := [
        "豚ひき肉300gに醤油、酒、ごま油を加えて混ぜる",
        "白菜とニラをみじん切りにして塩もみし、水気を絞る",
        "肉と野菜を混ぜ合わせて餡を作る",
        "ぎょうざの皮に餡を包む",
        "フライパンに油を熱し、ぎょうざを並べる",
        "底面に焼き色がついたら水を加えて蓋をし、蒸し焼きにする" ] }),
    (3, {
      ID := 3
      Name := "いくらとポテト"
      Description := "プチプチのいくらとホクホクポテトの贅沢な組み合わせ。見た目も美しく、特別な日にぴったりの一品です。"
      Emoji := "🥔"
      Image := env.ikuraPotatoImage
      ContentType := "image/jpeg"
      Steps := [
        "じゃがいも4個を皮付きのまま茹でる",
        "竹串がスッと通るまで20-25分茹でる",
        "茹で上がったらすぐに冷水で冷やし、皮をむく",
        "適当な大きさに切って器に盛る",
        "いくら50gを上に乗せる",
        "お好みでバターと塩コショウで味付けする" ] }),
    (4, {
      ID := 4
      Name := "さしみ料理"
      Description := "新鮮な魚の旨みを存分に味わえる日本料理の代表格。包丁使いと盛り付けが美しさの決め手です。"
      Emoji := "🍣"
      Image := env.sashimiImage
      ContentType := "image/jpeg"
      Steps := [
        "新鮮な刺身用の魚を用意する",
        "包丁を研いで切れ味を良くする",
        "魚を適当な厚さに切る",
        "わさびと醤油を添える",
        "大根のつまと一緒に盛り付ける",
        "美しく器に盛って完成" ] }),
    (5, {
      ID := 5
      Name := "ピザ"
      Description := "手作り生地で作る本格的なマルゲリータピザ。トマトソースとモッツァレラチーズのシンプルな美味しさ。"
      Emoji := "🍕"
      Image := env.pizzaImage
      ContentType := "image/jpeg"
      Steps := [
        "強力粉200g、薄力粉50g、塩小さじ1を混ぜる",
        "ぬるま湯140mlにドライイースト3gを溶かす",
        "粉類にイースト水を加えてこね、15分発酵させる",
        "生地を薄く伸ばしてピザソースを塗る",
        "チーズとお好みの具材をのせる",
        "220度のオーブンで12-15分焼く" ] }),
    (13, {
      ID := 13
      Name := "ステーキソース"
      Description := "お肉を引き立てる特製ソース。玉ねぎ、りんご、にんにくの絶妙なバランスで、ステーキが格段に美味しくなります！"
      Emoji := "🥩"
      Image := env.steakSauceImage
      ContentType := "image/jpeg"
      Steps := [
        "玉ねぎを炒める",
        "りんごを加える",
        "にんにくを加える",
        "醤油を加える",
        "みりんを加えて煮詰める",
        "全てが混ざり合い、とろみがついたら完成" ] }) ]

/-- Go `getRecipe`: the map lookup, `none` for the nil pointer. -/
def getRecipe (env : Env) (id : Int) : Option Recipe :=
  (recipeDatabase env).lookup id

/-- Go `getRecipeDetailData`. -/
def getRecipeDetailData (env : Env) (id : Int) : Option RecipeDetailData :=
  match (recipeDatabase env).lookup id with
  | none => none
  | some recipe =>
    some {
      ID := recipe.ID
      Name := recipe.Name
      Description := recipe.Description
      Emoji := recipe.Emoji
      Steps := recipe.Steps
      ShowDownload := id == 13 }

/-- Go `showNotFound`. -/
def showNotFound (env : Env) (w : ResponseWriter) : ResponseWriter :=
  let w1 := w.mapHeader fun h => h.Set "Content-Type" "text/html; charset=utf-8"
  (w1.WriteHeader 404).Write env.notFoundHTML

/-! ## The handlers -/

/-- Go `recipeHandler`. -/
def recipeHandler (env : Env) (w : ResponseWriter) (r : Request) : ResponseWriter :=
  match requireAuth w r with
  | (w1, _, false) => w1
  | (w1, _, true) =>
    let path := r.Path
    let idStr := stringsTrimPrefix path "/recipe/"
    match strconvAtoi idStr with
    | none => showNotFound env w1
    | some id =>
      match getRecipe env id with
      | none => showNotFound env w1
      | some recipe =>
        if stringsContains (r.QueryGet "format") "image" then
          (w1.mapHeader fun h => h.Set "Content-Type" recipe.ContentType).Write recipe.Image
        else
          match getRecipeDetailData env id with
          | none => showNotFound env w1
          | some recipeDetail =>
            match renderTemplate env w1 env.recipeDetailHTML (.recipe recipeDetail) "recipe" with
            | (w2, true) => httpError w2 "Template Error" 500
            | (w2, false) => w2

/-- Go `downloadHandler`. -/
def downloadHandler (env : Env) (w : ResponseWriter) (r : Request) : ResponseWriter :=
  match requireAuth w r with
  | (w1, _, false) => w1
  | (w1, _, true) =>
    let path := r.Path
    let filename := stringsTrimPrefix path "/download/"
    if filename = flagFilename then
      let w2 := w1.mapHeader fun h => h.Set "Content-Type" "application/zip"
      let w3 := w2.mapHeader fun h =>
        h.Set "Content-Disposition" ("attachment; filename=\"" ++ flagFilename ++ "\"")
      let w4 := w3.mapHeader fun h =>
        h.Set "Content-Length" (strconvItoa env.Ingredients.length)
      w4.Write env.Ingredients
    else showNotFound env w1

/-- The `DashboardData` that `dashboardHandler` builds for the cookie value `user`. -/
def dashboardData (user : String) : DashboardData :=
  if user = kanmuUser then
    { Title := "kanmuのダッシュボード"
      WelcomeMessage :=
        "🎉 こんにちは、" ++ user ++ "さん！あなたの美味しいレシピコレクションをお楽しみください。"
      Recipes := [
        { ID := 2, Name := "ぎょうざ", Description := "パリッとした食感が楽しめる手作りぎょうざ", Emoji := "🥟" },
        { ID := 3, Name := "いくらとポテト", Description := "プチプチのいくらとホクホクポテトの贅沢な一品", Emoji := "🥔" },
        { ID := 5, Name := "ピザ", Description := "手作り生地で作る本格的なマルゲリータピザ", Emoji := "🍕" } ] }
  else
    { Title := "レシピダッシュボード"
      WelcomeMessage := "✨ こんにちは、" ++ user ++ "さん！利用可能なレシピをご覧ください。"
      Recipes := [
        { ID := 13, Name := "ステーキソース", Description := "お肉を引き立てる特製ソース。隠し味で絶品に！", Emoji := "🥩" } ] }

/-- Go `dashboardHandler`. -/
def dashboardHandler (env : Env) (w : ResponseWriter) (r : Request) : ResponseWriter :=
  match requireAuth w r with
  | (w1, _, false) => w1
  | (w1, user, true) =>
    let data := dashboardData user
    match renderTemplate env w1 env.dashboardHTML (.dashboard data) "dashboard" with
    | (w2, true) => httpError w2 "Template Error" 500
    | (w2, false) => w2

/-- The table `loginHandler` writes when more than one user was read: the heading
and the table head, one row per user, the closing tag. -/
def dumpUsers (w : ResponseWriter) (users : List User) : ResponseWriter :=
  let w1 := w.mapHeader fun h => h.Set "Content-Type" "text/html; charset=utf-8"
  let w2 := w1.Write (goBytes
    "<h1>全ユーザー情報</h1><table border='1'><tr><th>ユーザー名</th><th>パスワード</th></tr>")
  let w3 := users.foldl (fun acc user => acc.Write (goBytes
    ("<tr><td>" ++ user.Username ++ "</td><td>" ++ user.Password ++ "</td></tr>"))) w2
  w3.Write (goBytes "</table>")

/-- The query text `loginHandler` builds with `fmt.Sprintf`. -/
def loginQuery (username password : String) : String :=
  "SELECT username, password FROM users WHERE username='" ++ username
    ++ "' AND password='" ++ password ++ "'"

/-- Go `loginHandler`. -/
def loginHandler (env : Env) (w : ResponseWriter) (r : Request) : ResponseWriter :=
  if r.Method = "GET" then
    match renderTemplate env w env.loginHTML (.login { Error := "" }) "login" with
    | (w1, true) => httpError w1 "Template Error" 500
    | (w1, false) => w1
  else if r.Method = "POST" then
    let username := r.FormValue "username"
    let password := r.FormValue "password"
    match createTempDatabase env with
    | none => httpError w "Database Error" 500
    | some db =>
      let query := loginQuery username password
      match db.QueryContext query with
      | none => httpError w "Database Error" 500
      | some rows =>
        let users := rows.scans.filterMap id
        if rows.err then httpError w "Database Error" 500
        else if users.length = 0 then
          match renderTemplate env w env.loginHTML
              (.login { Error := "ユーザー名またはパスワードが間違っています" }) "login" with
          | (w1, true) => httpError w1 "Template Error" 500
          | (w1, false) => w1
        else if users.length > 1 then dumpUsers w users
        else
          match users.head? with
          | none => w
          | some user => httpRedirect (httpSetUserCookie w user.Username) r "/dashboard" 302
  else w

/-! ## The credential query in SQLite

`filesql` loads the CSV file into a table `users` of an SQLite database and hands
the query text to SQLite. What follows describes SQLite on the texts of the form
`SELECT username, password FROM users WHERE <condition>` whose condition is built
from string literals, integer literals, the two columns, `=`, `AND` and `OR`;
`--` comments are skipped. A text with anything else is `outside`: nothing is
said about it. The columns hold text and are compared byte by byte. -/

/-- A token of the SQL text. A word is an identifier or a keyword, with its ASCII
letters in upper case (SQLite matches both without regard to case). -/
inductive Token where
  | word (s : String)
  | str (s : String)
  | num (n : Nat)
  | eq
  | comma
deriving DecidableEq, Repr

/-- Where the tokenizer stands: between tokens; inside a string literal; after a
quote inside a literal (the end of the literal, or the first half of a doubled
quote); after one minus sign; inside a `--` comment; inside a word; inside a
number; after one equals sign. -/
inductive LexState where
  | start
  | inStr (acc : List Char)
  | quote (acc : List Char)
  | dash
  | comment
  | word (acc : List Char)
  | num (n : Nat)
  | eq
deriving DecidableEq, Repr

/-- The outcome of one tokenizer step: tokens completed and the next state, or a
character outside the fragment. -/
inductive LexStep where
  | next (emit : List Token) (st : LexState)
  | outside
deriving DecidableEq, Repr

/-- The outcome of tokenizing: the tokens, an unterminated string literal (SQLite
rejects the text), or a text outside the fragment. -/
inductive Lexed where
  | tokens (ts : List Token)
  | illegal
  | outside
deriving DecidableEq, Repr

/-- The white space of the SQLite tokenizer: tab, line feed, form feed, carriage
return, space (the vertical tab is not among them). -/
def sqlSpace (c : Char) : Bool :=
  c == '\t' || c == '\n' || c == '\x0c' || c == '\r' || c == ' '

/-- A character that can start an identifier: an ASCII letter, an underscore, or
any character outside ASCII. The byte order mark is left outside the fragment. -/
def sqlIdStart (c : Char) : Bool :=
  (c.isAlpha || c == '_' || 0x80 ≤ c.toNat) && c != '\uFEFF'

/-- A character that can continue an identifier: also a digit or a dollar sign. -/
def sqlIdChar (c : Char) : Bool :=
  sqlIdStart c || c.isDigit || c == '$'

/-- The word token of the characters read. -/
def mkWord (acc : List Char) : Token :=
  .word ⟨acc.map Char.toUpper⟩

/-- A step from between tokens. -/
def lexStart (c : Char) : LexStep :=
  if sqlSpace c then .next [] .start
  else if c = '\'' then .next [] (.inStr [])
  else if c = '-' then .next [] .dash
  else if c = '=' then .next [] .eq
  else if c = ',' then .next [.comma] .start
  else if sqlIdStart c then .next [] (.word [c])
  else if c.isDigit then .next [] (.num (c.toNat - '0'.toNat))
  else .outside

/-- Put completed tokens in front of what a step emits. -/
def LexStep.after (emit : List Token) : LexStep → LexStep
  | .next e st => .next (emit ++ e) st
  | .outside => .outside

/-- One tokenizer step. A quote right after the one-letter word X starts a blob
literal, a letter or a dot right after a number makes another kind of literal,
and a single minus sign is an operator: all outside the fragment. -/
def lexStep (st : LexState) (c : Char) : LexStep :=
  match st with
  | .start => lexStart c
  | .inStr acc => if c = '\'' then .next [] (.quote acc) else .next [] (.inStr (acc ++ [c]))
  | .quote acc =>
    if c = '\'' then .next [] (.inStr (acc ++ ['\'']))
    else (lexStart c).after [.str ⟨acc⟩]
  | .dash => if c = '-' then .next [] .comment else .outside
  | .comment => if c = '\n' then .next [] .start else .next [] .comment
  | .word acc =>
    if sqlIdChar c then .next [] (.word (acc ++ [c]))
    else if c = '\uFEFF' then .outside
    else if c = '\'' ∧ acc.map Char.toUpper = ['X'] then .outside
    else (lexStart c).after [mkWord acc]
  | .num n =>
    if c.isDigit then .next [] (.num (n * 10 + (c.toNat - '0'.toNat)))
    else if sqlIdChar c ∨ c = '.' ∨ c = '\uFEFF' then .outside
    else (lexStart c).after [.num n]
  | .eq =>
    if c = '=' then .next [.eq] .start
    else (lexStart c).after [.eq]

/-- The end of the text. -/
def lexEnd (st : LexState) (ts : List Token) : Lexed :=
  match st with
  | .start => .tokens ts
  | .inStr _ => .illegal
  | .quote acc => .tokens (ts ++ [.str ⟨acc⟩])
  | .dash => .outside
  | .comment => .tokens ts
  | .word acc => .tokens (ts ++ [mkWord acc])
  | .num n => .tokens (ts ++ [.num n])
  | .eq => .tokens (ts ++ [.eq])

/-- Tokenize from a state. SQLite reads the text up to its first zero byte. -/
def lexFrom : LexState → List Token → List Char → Lexed
  | st, ts, [] => lexEnd st ts
  | st, ts, c :: cs =>
    if c = '\x00' then lexEnd st ts
    else
      match lexStep st c with
      | .next emit st1 => lexFrom st1 (ts ++ emit) cs
      | .outside => .outside

/-- The tokens of an SQL text. -/
def sqlTokens (sql : String) : Lexed :=
  lexFrom .start [] sql.data

/-- A condition of the fragment. -/
inductive Expr where
  | text (s : String)
  | int (n : Nat)
  | username
  | password
  | eq (a b : Expr)
  | and (a b : Expr)
  | or (a b : Expr)
deriving DecidableEq, Repr

/-- The outcome of parsing: a condition, a syntax error (SQLite rejects the
text), or a text outside the fragment. -/
inductive Parsed where
  | ok (e : Expr)
  | syntaxError
  | outside
deriving DecidableEq, Repr

/-- What the parser waits for: an operand, possibly the right-hand side of `left =`;
or, after a comparison `e`, an operator or the end. -/
inductive ParseMode where
  | operand (left : Option Expr)
  | operator (e : Expr)
deriving DecidableEq, Repr

/-- The operand a token stands for, if any. -/
def tokenOperand : Token → Option Expr
  | .str s => some (.text s)
  | .num n => some (.int n)
  | .word w => if w = "USERNAME" then some .username
      else if w = "PASSWORD" then some .password else none
  | _ => none

/-- A word that is no keyword in any version of SQLite: a keyword has at least two
characters, all of them ASCII letters or underscores. -/
def neverKeyword (w : String) : Bool :=
  w.length = 1 || w.data.any (fun c => !(c.isAlpha || c == '_'))

/-- Join a comparison to the conjunction read so far. -/
def joinAnd (acc : Option Expr) (e : Expr) : Expr :=
  match acc with
  | none => e
  | some a => .and a e

/-- Join a conjunction to the disjunction read so far. -/
def joinOr (acc : Option Expr) (e : Expr) : Expr :=
  match acc with
  | none => e
  | some a => .or a e

/-- Parse a condition: `=` binds tighter than `AND`, `AND` tighter than `OR`, all
three associate to the left. `disj` holds the disjuncts already complete, `conj`
the conjuncts already complete of the disjunct being read. A literal or a word
that is no keyword cannot follow a complete comparison, and `=`, `AND`, `OR` or
the end of the text cannot stand where an operand is due: syntax errors. -/
def parseCondition : Option Expr → Option Expr → ParseMode → List Token → Parsed
  | _, _, .operand _, [] => .syntaxError
  | disj, conj, .operator e, [] => .ok (joinOr disj (joinAnd conj e))
  | disj, conj, .operand left, t :: ts =>
    match tokenOperand t with
    | some p =>
      parseCondition disj conj (.operator (match left with | none => p | some l => .eq l p)) ts
    | none =>
      match t with
      | .eq => .syntaxError
      | .word w => if w = "AND" ∨ w = "OR" then .syntaxError else .outside
      | _ => .outside
  | disj, conj, .operator e, t :: ts =>
    match t with
    | .eq => parseCondition disj conj (.operand (some e)) ts
    | .str _ => .syntaxError
    | .num _ => .syntaxError
    | .comma => .outside
    | .word w =>
      if w = "AND" then parseCondition disj (some (joinAnd conj e)) (.operand none) ts
      else if w = "OR" then
        parseCondition (some (joinOr disj (joinAnd conj e))) none (.operand none) ts
      else if neverKeyword w then .syntaxError
      else .outside

/-- Parse the whole statement: the fixed head that `loginQuery` writes, then the
condition. -/
def parseSelect (ts : List Token) : Parsed :=
  match ts with
  | .word "SELECT" :: .word "USERNAME" :: .comma :: .word "PASSWORD" :: .word "FROM"
      :: .word "USERS" :: .word "WHERE" :: rest => parseCondition none none (.operand none) rest
  | _ => .outside

/-- A value: text or integer. -/
inductive Val where
  | text (s : String)
  | int (n : Nat)
deriving DecidableEq, Repr

/-- The value of a condition on a row; `none` where the fragment ends (a
comparison of text with a number, text used as a truth value, an integer literal
that does not fit 64 bits). -/
def evalExpr (u : User) : Expr → Option Val
  | .text s => some (.text s)
  | .int n => if n < 2 ^ 63 then some (.int n) else none
  | .username => some (.text u.Username)
  | .password => some (.text u.Password)
  | .eq a b =>
    match evalExpr u a, evalExpr u b with
    | some (.text x), some (.text y) => some (.int (if x = y then 1 else 0))
    | some (.int x), some (.int y) => some (.int (if x = y then 1 else 0))
    | _, _ => none
  | .and a b =>
    match evalExpr u a, evalExpr u b with
    | some (.int x), some (.int y) => some (.int (if x ≠ 0 ∧ y ≠ 0 then 1 else 0))
    | _, _ => none
  | .or a b =>
    match evalExpr u a, evalExpr u b with
    | some (.int x), some (.int y) => some (.int (if x ≠ 0 ∨ y ≠ 0 then 1 else 0))
    | _, _ => none

/-- Whether the row is selected; `none` where the fragment ends. -/
def rowMatches (e : Expr) (u : User) : Option Bool :=
  match evalExpr u e with
  | some (.int n) => some (n != 0)
  | _ => none

/-- The rows of the table that a condition selects, in table order. -/
def selectRows (e : Expr) : List User → Option (List User)
  | [] => some []
  | u :: us =>
    match rowMatches e u, selectRows e us with
    | some b, some rest => some (if b then u :: rest else rest)
    | _, _ => none

/-- What SQLite answers: rows, an error, or nothing said. -/
inductive Outcome where
  | rows (us : List User)
  | error
  | outside
deriving DecidableEq, Repr

/-- SQLite on a query text over the table `users` with the rows `store`. -/
def sqliteSelect (store : List User) (sql : String) : Outcome :=
  match sqlTokens sql with
  | .outside => .outside
  | .illegal => .error
  | .tokens ts =>
    match parseSelect ts with
    | .outside => .outside
    | .syntaxError => .error
    | .ok e =>
      match selectRows e store with
      | none => .outside
      | some us => .rows us

/-- The database answers like SQLite over a table with the rows `store`, wherever
the fragment says what SQLite answers: every selected row scans into a `User`. -/
def SqliteOver (db : Database) (store : List User) : Prop :=
  ∀ sql : String,
    match sqliteSelect store sql with
    | .rows us => db.QueryContext sql = some { scans := us.map some, err := false }
    | .error => db.QueryContext sql = none
    | .outside => True

/-- A database over the rows `store` that answers the fragment like SQLite and
rejects every other text. -/
def sqliteDatabase (store : List User) : Database where
  QueryContext sql :=
    match sqliteSelect store sql with
    | .rows us => some { scans := us.map some, err := false }
    | .error => none
    | .outside => none

/-- Modelled from the spec: `assets/users.csv` is not part of the sources; these
are the credential pairs that `TestLoginHandler` expects in the dump and that
`TestEmbeddedAssets` looks for in the file, in the order the test lists them. -/
def storedUsers : List User :=
  [ { Username := "kanmu", Password := "gocon2025" },
    { Username := "admin", Password := "Adm1n$ecur3" },
    { Username := "gocon", Password := "G0c0n2025!" },
    { Username := "vandle", Password := "V@ndl3P@ss" },
    { Username := "zip", Password := "qwerty123456" } ]

/-! ## Sample environments and requests -/

/-- A template engine for the samples: it writes the template text and then one
field of the data, and returns no error. -/
def sampleExecute (_name : String) (text : Bytes) (data : TemplateData) : List Bytes × Bool :=
  ([text, goBytes (match data with
      | .login d => d.Error
      | .dashboard d => d.Title
      | .recipe d => d.Name)], false)

/-- An environment for the samples: short assets, a file system and a template
engine that work, and `db` as the database that filesql opens. -/
def sampleEnv (db : Database) : Env where
  usersCSV := goBytes ("username,password\nkanmu,gocon2025\nadmin,Adm1n$ecur3\n"
    ++ "gocon,G0c0n2025!\nvandle,V@ndl3P@ss\nzip,qwerty123456\n")
  loginHTML := goBytes "login:"
  notFoundHTML := goBytes "not found"
  Ingredients := [80, 75, 3, 4]
  dashboardHTML := goBytes "dashboard:"
  recipeDetailHTML := goBytes "recipe:"
  gyozaImage := [255, 216, 1]
  ikuraPotatoImage := [255, 216, 2]
  pizzaImage := [255, 216, 3]
  sashimiImage := [255, 216, 4]
  steakSauceImage := [255, 216, 5]
  writeFile := fun _ => true
  filesqlOpen := fun _ => some db
  templateParse := fun _ _ => true
  templateExecute := sampleExecute

/-- A database whose answer to every query is one row that `rows.Scan` cannot read
into two strings (a row of NULLs, as `UNION SELECT NULL, NULL` produces). -/
def scanFailureDatabase : Database where
  QueryContext _ := some { scans := [none], err := false }

/-- A database whose answer to every query is one row with a semicolon in the
user name (as `UNION SELECT` with literal columns produces). -/
def semicolonDatabase : Database where
  QueryContext _ := some { scans := [some { Username := "a;b", Password := "x" }], err := false }

/-- A form post to `/login`. -/
def loginPost (username password : String) : Request where
  Method := "POST"
  Path := "/login"
  Query := []
  PostForm := [("username", username), ("password", password)]
  Cookies := []

/-- A GET request with the cookie `user=value`. -/
def getAs (value path : String) (query : List (String × String)) : Request where
  Method := "GET"
  Path := path
  Query := query
  PostForm := []
  Cookies := [("user", value)]

/-- A GET request without cookies. -/
def getAnonymous (path : String) (query : List (String × String)) : Request where
  Method := "GET"
  Path := path
  Query := query
  PostForm := []
  Cookies := []

/-! ## Statements used by the theorems -/

/-- The template `text` named `name` parses and executes on `data` without error. -/
def Renders (env : Env) (name : String) (text : Bytes) (data : TemplateData) : Prop :=
  env.templateParse name text = true ∧ (env.templateExecute name text data).2 = false

/-- The bytes of one table row of the credential dump. -/
def dumpRow (user : User) : Bytes :=
  goBytes ("<tr><td>" ++ user.Username ++ "</td><td>" ++ user.Password ++ "</td></tr>")

/-- The bytes of the credential dump for the users read. -/
def dumpBody (users : List User) : Bytes :=
  goBytes "<h1>全ユーザー情報</h1><table border='1'><tr><th>ユーザー名</th><th>パスワード</th></tr>"
    ++ (users.map dumpRow).flatten ++ goBytes "</table>"

/-- The value passes `sanitizeCookieValue` unchanged: every character is valid in a
cookie value and none is a space or a comma. -/
def cookieSafe (s : String) : Bool :=
  s.data.all fun c => validCookieValueByte c && c != ' ' && c != ','

/-- The in-memory row scan that the spec calls equivalent to the credential query:
the stored rows whose username and password equal the submitted ones. -/
def rowScan (store : List User) (username password : String) : List User :=
  store.filter fun x => decide (x.Username = username ∧ x.Password = password)

/-- The fixed error text of the login form. -/
def loginError : String := "ユーザー名またはパスワードが間違っています"

/-! ## Lemmas on the response writer -/

theorem requireAuth_none (w : ResponseWriter) (r : Request) (h : r.Cookie "user" = none) :
    requireAuth w r = (httpRedirect w r "/" 302, "", false) := by
  simp [requireAuth, h]

theorem requireAuth_some (w : ResponseWriter) (r : Request) (v : String)
    (h : r.Cookie "user" = some v) : requireAuth w r = (w, v, true) := by
  simp [requireAuth, h]

theorem Write_body (w : ResponseWriter) (b : Bytes) : (w.Write b).Body = w.Body ++ b := by
  unfold ResponseWriter.Write ResponseWriter.WriteHeader
  split <;> rfl

theorem Write_header (w : ResponseWriter) (b : Bytes) : (w.Write b).header = w.header := by
  unfold ResponseWriter.Write ResponseWriter.WriteHeader
  split <;> rfl

theorem Write_wroteHeader (w : ResponseWriter) (b : Bytes) : (w.Write b).wroteHeader = true := by
  unfold ResponseWriter.Write ResponseWriter.WriteHeader
  split <;> simp_all

theorem Write_code (w : ResponseWriter) (b : Bytes) :
    (w.Write b).Code = if w.wroteHeader then w.Code else 200 := by
  unfold ResponseWriter.Write ResponseWriter.WriteHeader
  split <;> simp_all

theorem Write_sent (w : ResponseWriter) (b : Bytes) :
    (w.Write b).sent = if w.wroteHeader then w.sent else w.header := by
  unfold ResponseWriter.Write ResponseWriter.WriteHeader
  split <;> simp_all

theorem foldl_Write_body (chunks : List Bytes) (w : ResponseWriter) :
    (chunks.foldl ResponseWriter.Write w).Body = w.Body ++ chunks.flatten := by
  induction chunks generalizing w with
  | nil => simp
  | cons c cs ih => simp [ih, Write_body]

theorem foldl_Write_header (chunks : List Bytes) (w : ResponseWriter) :
    (chunks.foldl ResponseWriter.Write w).header = w.header := by
  induction chunks generalizing w with
  | nil => simp
  | cons c cs ih => simp [ih, Write_header]

theorem foldl_Write_code (chunks : List Bytes) (w : ResponseWriter) (hc : w.Code = 200) :
    (chunks.foldl ResponseWriter.Write w).Code = 200 := by
  induction chunks generalizing w with
  | nil => simpa using hc
  | cons c cs ih =>
    simp only [List.foldl_cons]
    apply ih
    rw [Write_code]; split <;> simp [hc]

theorem foldl_Write_result (chunks : List Bytes) (w : ResponseWriter)
    (hw : w.ResultHeader = w.header) :
    (chunks.foldl ResponseWriter.Write w).ResultHeader = w.header := by
  induction chunks generalizing w with
  | nil => simpa using hw
  | cons c cs ih =>
    simp only [List.foldl_cons]
    rw [ih, Write_header]
    rw [Write_header]
    unfold ResponseWriter.ResultHeader at hw ⊢
    rw [Write_wroteHeader, Write_sent]
    simp only [if_true]
    exact hw

/-- What a template that renders leaves in a writer that was not written to. -/
theorem renderTemplate_renders (env : Env) (text : Bytes) (data : TemplateData) (name : String)
    (h : Renders env name text data) :
    renderTemplate env newRecorder text data name =
      ((env.templateExecute name text data).1.foldl ResponseWriter.Write
        (newRecorder.mapHeader fun h => h.Set "Content-Type" "text/html; charset=utf-8"),
        false) := by
  obtain ⟨hp, he⟩ := h
  simp [renderTemplate, hp, he]

theorem rendered_facts (chunks : List Bytes) :
    let w := chunks.foldl ResponseWriter.Write
      (newRecorder.mapHeader fun h => h.Set "Content-Type" "text/html; charset=utf-8")
    w.Code = 200 ∧ w.Body = chunks.flatten ∧
      w.ResultHeader = [("Content-Type", "text/html; charset=utf-8")] := by
  refine ⟨?_, ?_, ?_⟩
  · exact foldl_Write_code _ _ rfl
  · rw [foldl_Write_body]; rfl
  · rw [foldl_Write_result _ _ rfl]; rfl

/-- The POST branch of `loginHandler` once the query has been answered without
error: the three cases on the number of users read. -/
theorem loginHandler_post (env : Env) (db : Database) (rows : Rows) (r : Request)
    (hm : r.Method = "POST") (hdb : createTempDatabase env = some db)
    (hq : db.QueryContext (loginQuery (r.FormValue "username") (r.FormValue "password"))
      = some rows)
    (herr : rows.err = false) :
    loginHandler env newRecorder r =
      if (rows.scans.filterMap id).length = 0 then
        match renderTemplate env newRecorder env.loginHTML
            (.login { Error := loginError }) "login" with
        | (w1, true) => httpError w1 "Template Error" 500
        | (w1, false) => w1
      else if (rows.scans.filterMap id).length > 1 then
        dumpUsers newRecorder (rows.scans.filterMap id)
      else
        match (rows.scans.filterMap id).head? with
        | none => newRecorder
        | some user =>
          httpRedirect (httpSetUserCookie newRecorder user.Username) r "/dashboard" 302 := by
  simp [loginHandler, hm, hdb, hq, herr, loginError]

/-- The response of a successful login. -/
theorem login_redirect_facts (r : Request) (hm : r.Method = "POST") (name : String) :
    let w := httpRedirect (httpSetUserCookie newRecorder name) r "/dashboard" 302
    w.Code = 302 ∧ w.ResultHeader.Get "Location" = "/dashboard" ∧
      w.ResultHeader.Values "Set-Cookie" = [userCookieString name] ∧ w.Body = [] := by
  simp [httpRedirect, httpSetUserCookie, newRecorder, hm, ResponseWriter.mapHeader,
    ResponseWriter.WriteHeader, ResponseWriter.ResultHeader, Header.Has, Header.Set, Header.Add,
    Header.Get, Header.Values, List.lookup, List.filter]

/-! ## C1: requests without the cookie are redirected -/

/-- C1. A request without a cookie named "user" gets, from each of dashboardHandler,
recipeHandler and downloadHandler, exactly the response of `http.Redirect` to "/"
with status 302: its status is 302, its Location is "/", and its body is the short
note of `http.Redirect` for a GET and empty otherwise, whatever the path, the query
and the assets are (so no dashboard, recipe, image or archive content is written). -/
theorem unauthenticated_redirect (env : Env) (r : Request) (h : r.Cookie "user" = none) :
    dashboardHandler env newRecorder r = httpRedirect newRecorder r "/" 302 ∧
    recipeHandler env newRecorder r = httpRedirect newRecorder r "/" 302 ∧
    downloadHandler env newRecorder r = httpRedirect newRecorder r "/" 302 ∧
    (httpRedirect newRecorder r "/" 302).Code = 302 ∧
    (httpRedirect newRecorder r "/" 302).ResultHeader.Get "Location" = "/" ∧
    (httpRedirect newRecorder r "/" 302).Body =
      if r.Method = "GET" then goBytes "<a href=\"/\">Found</a>.\n\n" else [] := by
  refine ⟨?_, ?_, ?_, ?_⟩
  · simp [dashboardHandler, requireAuth_none _ _ h]
  · simp [recipeHandler, requireAuth_none _ _ h]
  · simp [downloadHandler, requireAuth_none _ _ h]
  · by_cases hg : r.Method = "GET"
    · simp [httpRedirect, newRecorder, hg, ResponseWriter.mapHeader,
        ResponseWriter.WriteHeader, ResponseWriter.Write, ResponseWriter.ResultHeader, Header.Has,
        Header.Set, Header.Get, List.lookup]
      decide
    · by_cases hh : r.Method = "HEAD"
      · simp [httpRedirect, newRecorder, hg, hh, ResponseWriter.mapHeader,
          ResponseWriter.WriteHeader, ResponseWriter.Write, ResponseWriter.ResultHeader, Header.Has,
          Header.Set, Header.Get, List.lookup]
      · simp [httpRedirect, newRecorder, hg, hh, ResponseWriter.mapHeader,
          ResponseWriter.WriteHeader, ResponseWriter.Write, ResponseWriter.ResultHeader, Header.Has,
          Header.Set, Header.Get, List.lookup]

/-- C1 at a GET of `/recipe/13?format=image` without cookies. -/
theorem unauthenticated_redirect_witness :
    (getAnonymous "/recipe/13" [("format", "image")]).Cookie "user" = none ∧
    (recipeHandler (sampleEnv (sqliteDatabase storedUsers)) newRecorder
      (getAnonymous "/recipe/13" [("format", "image")])).Code = 302 :=
  ⟨by decide, by
    have h := unauthenticated_redirect (sampleEnv (sqliteDatabase storedUsers))
      (getAnonymous "/recipe/13" [("format", "image")]) (by decide)
    rw [h.2.1]; exact h.2.2.2.1⟩
/-! ## C2: a login that reads one user -/

theorem sanitize_cookieSafe (s : String) (h : cookieSafe s = true) :
    sanitizeCookieValue s = s := by
  unfold cookieSafe at h
  rw [List.all_eq_true] at h
  have hfilter : s.data.filter validCookieValueByte = s.data := by
    rw [List.filter_eq_self]
    intro c hc
    have := h c hc
    simp only [Bool.and_eq_true] at this
    exact this.1.1
  have hany : (s.data.any fun c => c == ' ' || c == ',') = false := by
    rw [List.any_eq_false]
    intro c hc
    have := h c hc
    simp only [Bool.and_eq_true, bne_iff_ne, ne_eq] at this
    simp [this.1.2, this.2]
  simp [sanitizeCookieValue, hfilter, hany]

theorem kanmu_query (db : Database) (h : SqliteOver db storedUsers) :
    db.QueryContext (loginQuery "kanmu" "gocon2025") =
      some { scans := [some { Username := "kanmu", Password := "gocon2025" }], err := false } := by
  have h1 := h (loginQuery "kanmu" "gocon2025")
  have h2 : sqliteSelect storedUsers (loginQuery "kanmu" "gocon2025") =
      .rows [{ Username := "kanmu", Password := "gocon2025" }] := by decide
  rw [h2] at h1
  exact h1

/-- C2 (amended). For every POST to loginHandler whose credential query returns
exactly one row, without an iteration error, and that row scans into a user: the
response has status 302, Location "/dashboard", and one Set-Cookie header, the
serialisation by `net/http` of the cookie "user" with the user name of the row and
Path "/"; this is `user=<name>; Path=/` whenever the name has only characters that
are valid in a cookie value and neither a space nor a comma. Over the stored
credentials the query for kanmu / gocon2025 returns exactly the row of kanmu, and
the cookie is then `user=kanmu; Path=/`. -/
theorem login_single_user (env : Env) (db : Database) (rows : Rows) (user : User)
    (r : Request) (hm : r.Method = "POST") (hdb : createTempDatabase env = some db)
    (hq : db.QueryContext (loginQuery (r.FormValue "username") (r.FormValue "password"))
      = some rows)
    (hrows : rows.scans = [some user]) (herr : rows.err = false) :
    (loginHandler env newRecorder r).Code = 302 ∧
    (loginHandler env newRecorder r).ResultHeader.Get "Location" = "/dashboard" ∧
    (loginHandler env newRecorder r).ResultHeader.Values "Set-Cookie"
      = [userCookieString user.Username] ∧
    (loginHandler env newRecorder r).Body = [] ∧
    (cookieSafe user.Username = true →
      userCookieString user.Username = "user=" ++ user.Username ++ "; Path=/") ∧
    (∀ db2 : Database, SqliteOver db2 storedUsers →
      db2.QueryContext (loginQuery "kanmu" "gocon2025") =
        some { scans := [some { Username := "kanmu", Password := "gocon2025" }],
               err := false }) ∧
    userCookieString "kanmu" = "user=kanmu; Path=/" := by
  have hw : loginHandler env newRecorder r =
      httpRedirect (httpSetUserCookie newRecorder user.Username) r "/dashboard" 302 := by
    rw [loginHandler_post env db rows r hm hdb hq herr, hrows]
    simp
  rw [hw]
  obtain ⟨h1, h2, h3, h4⟩ := login_redirect_facts r hm user.Username
  refine ⟨h1, h2, h3, h4, ?_, kanmu_query, by decide⟩
  intro hs
  simp [userCookieString, sanitize_cookieSafe _ hs]

/-- C2 (amended) at the login of kanmu with gocon2025 over the stored credentials. -/
theorem login_single_user_witness :
    (loginHandler (sampleEnv (sqliteDatabase storedUsers)) newRecorder
      (loginPost "kanmu" "gocon2025")).ResultHeader.Values "Set-Cookie"
      = [userCookieString "kanmu"] :=
  (login_single_user (sampleEnv (sqliteDatabase storedUsers)) (sqliteDatabase storedUsers)
    { scans := [some { Username := "kanmu", Password := "gocon2025" }], err := false }
    { Username := "kanmu", Password := "gocon2025" } (loginPost "kanmu" "gocon2025")
    rfl rfl (by decide) rfl rfl).2.2.1

/-- C2 as stated fails. A query answered with exactly one row that Scan cannot read
(a row of NULLs) leaves no user: the response is the login form with status 200
and no cookie. And a row whose user name has a semicolon sets the cookie to the
name without the semicolon. -/
theorem login_single_row_counterexample :
    (∃ rows, scanFailureDatabase.QueryContext
        (loginQuery "' UNION SELECT NULL, NULL --" "") = some rows ∧
      rows.scans.length = 1 ∧ rows.err = false) ∧
    (loginHandler (sampleEnv scanFailureDatabase) newRecorder
      (loginPost "' UNION SELECT NULL, NULL --" "")).Code = 200 ∧
    (loginHandler (sampleEnv scanFailureDatabase) newRecorder
      (loginPost "' UNION SELECT NULL, NULL --" "")).ResultHeader.Values "Set-Cookie" = [] ∧
    (loginHandler (sampleEnv scanFailureDatabase) newRecorder
      (loginPost "' UNION SELECT NULL, NULL --" "")).Body
        = goBytes "login:" ++ goBytes loginError ∧
    (loginHandler (sampleEnv semicolonDatabase) newRecorder
      (loginPost "' UNION SELECT 'a;b', 'x' --" "")).ResultHeader.Values "Set-Cookie"
        = ["user=ab; Path=/"] := by
  refine ⟨⟨_, rfl, rfl, rfl⟩, ?_, ?_, ?_, ?_⟩ <;> decide

/-! ## C3: a login that reads no row -/

/-- C3. For every POST to loginHandler whose credential query returns zero rows
(and no iteration error), with a login template that renders: the response is the
login template executed on `LoginData` with the fixed error text, with status 200,
Content-Type text/html as its only header, so no cookie and no Location. -/
theorem login_zero_rows (env : Env) (db : Database) (rows : Rows) (r : Request)
    (hm : r.Method = "POST") (hdb : createTempDatabase env = some db)
    (hq : db.QueryContext (loginQuery (r.FormValue "username") (r.FormValue "password"))
      = some rows)
    (hrows : rows.scans = []) (herr : rows.err = false)
    (ht : Renders env "login" env.loginHTML
      (.login { Error := "ユーザー名またはパスワードが間違っています" })) :
    (loginHandler env newRecorder r).Code = 200 ∧
    (loginHandler env newRecorder r).Body =
      (env.templateExecute "login" env.loginHTML
        (.login { Error := "ユーザー名またはパスワードが間違っています" })).1.flatten ∧
    (loginHandler env newRecorder r).ResultHeader = [("Content-Type", "text/html; charset=utf-8")] ∧
    (loginHandler env newRecorder r).ResultHeader.Values "Set-Cookie" = [] ∧
    (loginHandler env newRecorder r).ResultHeader.Has "Location" = false := by
  have hw : loginHandler env newRecorder r =
      (env.templateExecute "login" env.loginHTML
        (.login { Error := loginError })).1.foldl ResponseWriter.Write
        (newRecorder.mapHeader fun h => h.Set "Content-Type" "text/html; charset=utf-8") := by
    have ht1 : Renders env "login" env.loginHTML (.login { Error := loginError }) := ht
    rw [loginHandler_post env db rows r hm hdb hq herr, hrows,
      renderTemplate_renders env _ _ _ ht1]
    simp
  obtain ⟨h1, h2, h3⟩ := rendered_facts
    (env.templateExecute "login" env.loginHTML (.login { Error := loginError })).1
  rw [hw]
  refine ⟨h1, h2, h3, ?_, ?_⟩
  · rw [h3]; decide
  · rw [h3]; decide

/-- C3 at the login of invalid / invalid over the stored credentials. -/
theorem login_zero_rows_witness :
    (loginHandler (sampleEnv (sqliteDatabase storedUsers)) newRecorder
      (loginPost "invalid" "invalid")).Code = 200 ∧
    (loginHandler (sampleEnv (sqliteDatabase storedUsers)) newRecorder
      (loginPost "invalid" "invalid")).Body = goBytes "login:" ++ goBytes loginError :=
  have h := login_zero_rows (sampleEnv (sqliteDatabase storedUsers))
    (sqliteDatabase storedUsers) { scans := [], err := false } (loginPost "invalid" "invalid")
    rfl rfl (by decide) rfl rfl ⟨rfl, rfl⟩
  ⟨h.1, by rw [h.2.1]; decide⟩
/-! ## C4: the injected condition -/

theorem goBytes_append (a b : String) : goBytes (a ++ b) = goBytes a ++ goBytes b := by
  simp [goBytes, String.data_append, List.flatMap_append]

/-- Inside a string literal, characters other than the quote and the zero byte are
collected. -/
theorem lexFrom_inStr (p : List Char) (hq : '\'' ∉ p) (h0 : '\x00' ∉ p) (acc : List Char)
    (ts : List Token) (rest : List Char) :
    lexFrom (.inStr acc) ts (p ++ rest) = lexFrom (.inStr (acc ++ p)) ts rest := by
  induction p generalizing acc with
  | nil => simp
  | cons c cs ih =>
    have hc1 : ¬ (c = '\'') := fun h => hq (by simp [h])
    have hc0 : ¬ (c = '\x00') := fun h => h0 (by simp [h])
    have hq1 : '\'' ∉ cs := fun h => hq (List.mem_cons_of_mem _ h)
    have h01 : '\x00' ∉ cs := fun h => h0 (List.mem_cons_of_mem _ h)
    simp only [List.cons_append, lexFrom, lexStep, hc0, hc1, if_false, List.append_nil]
    show lexFrom (.inStr (acc ++ [c])) ts (cs ++ rest) = _
    rw [ih hq1 h01]
    simp

/-- A comment without a line feed runs to the end of the text. -/
theorem lexFrom_comment (t : List Char) (hn : '\n' ∉ t) (ts : List Token) :
    lexFrom .comment ts t = .tokens ts := by
  induction t with
  | nil => rfl
  | cons c cs ih =>
    have hc : ¬ (c = '\n') := fun h => hn (by simp [h])
    have hn1 : '\n' ∉ cs := fun h => hn (List.mem_cons_of_mem _ h)
    by_cases h0 : c = '\x00'
    · simp [lexFrom, h0, lexEnd]
    · simp only [lexFrom, lexStep, h0, hc, if_false, List.append_nil]
      exact ih hn1

/-- The tokens of the head that `loginQuery` writes, up to the opening quote. -/
theorem lexFrom_head (rest : List Char) :
    lexFrom .start [] ("SELECT username, password FROM users WHERE username='".data ++ rest) =
      lexFrom (.inStr []) [.word "SELECT", .word "USERNAME", .comma, .word "PASSWORD",
        .word "FROM", .word "USERS", .word "WHERE", .word "USERNAME", .eq] rest := by
  rfl

/-- The tokens of the injected text, from inside the literal to the comment. -/
theorem lexFrom_payload (p : List Char) (ts : List Token) (rest : List Char) :
    lexFrom (.inStr p) ts ("' OR '1'='1' --".data ++ rest) =
      lexFrom .comment (ts ++ [.str ⟨p⟩, .word "OR", .str "1", .eq, .str "1"]) rest := by
  simp [lexFrom, lexStep, lexStart, LexStep.after, mkWord, sqlSpace, sqlIdStart, sqlIdChar]

/-- The tokens of a login query whose user name is `p`, the injected text, `s`. -/
theorem sqlTokens_injection (p s pw : String) (hq : '\'' ∉ p.data) (h0 : '\x00' ∉ p.data)
    (hs : '\n' ∉ s.data) (hpw : '\n' ∉ pw.data) :
    sqlTokens (loginQuery (p ++ "' OR '1'='1' --" ++ s) pw) =
      .tokens [.word "SELECT", .word "USERNAME", .comma, .word "PASSWORD", .word "FROM",
        .word "USERS", .word "WHERE", .word "USERNAME", .eq, .str p, .word "OR", .str "1",
        .eq, .str "1"] := by
  have hdata : (loginQuery (p ++ "' OR '1'='1' --" ++ s) pw).data =
      "SELECT username, password FROM users WHERE username='".data ++ (p.data ++
        ("' OR '1'='1' --".data ++ (s.data ++ "' AND password='".data ++ pw.data
          ++ "'".data))) := by
    simp [loginQuery, String.data_append, List.append_assoc]
  have hrest : '\n' ∉ s.data ++ "' AND password='".data ++ pw.data ++ "'".data := by
    simp only [List.mem_append, not_or]
    exact ⟨⟨⟨hs, by decide⟩, hpw⟩, by decide⟩
  unfold sqlTokens
  rw [hdata, lexFrom_head, lexFrom_inStr p.data hq h0, lexFrom_payload,
    lexFrom_comment _ hrest]
  rfl

/-- An always-true disjunct selects every row. -/
theorem selectRows_injection (p : String) (store : List User) :
    selectRows (.or (.eq .username (.text p)) (.eq (.text "1") (.text "1"))) store
      = some store := by
  induction store with
  | nil => rfl
  | cons u us ih =>
    have hrow : rowMatches (.or (.eq .username (.text p)) (.eq (.text "1") (.text "1"))) u
        = some true := by
      by_cases h : u.Username = p <;> simp [rowMatches, evalExpr, h]
    simp [selectRows, hrow, ih]

/-- SQLite answers the injected query with every row of the table. -/
theorem sqliteSelect_injection (store : List User) (p s pw : String) (hq : '\'' ∉ p.data)
    (h0 : '\x00' ∉ p.data) (hs : '\n' ∉ s.data) (hpw : '\n' ∉ pw.data) :
    sqliteSelect store (loginQuery (p ++ "' OR '1'='1' --" ++ s) pw) = .rows store := by
  have hparse : parseSelect [.word "SELECT", .word "USERNAME", .comma, .word "PASSWORD",
      .word "FROM", .word "USERS", .word "WHERE", .word "USERNAME", .eq, .str p, .word "OR",
      .str "1", .eq, .str "1"] =
      .ok (.or (.eq .username (.text p)) (.eq (.text "1") (.text "1"))) := by
    simp [parseSelect, parseCondition, tokenOperand, joinOr, joinAnd]
  simp [sqliteSelect, sqlTokens_injection p s pw hq h0 hs hpw, hparse, selectRows_injection]

/-- The response that `dumpUsers` leaves in a fresh writer. -/
theorem dumpUsers_facts (users : List User) :
    (dumpUsers newRecorder users).Code = 200 ∧
    (dumpUsers newRecorder users).Body = dumpBody users ∧
    (dumpUsers newRecorder users).ResultHeader = [("Content-Type", "text/html; charset=utf-8")] := by
  have hfold : ∀ (us : List User) (w : ResponseWriter),
      us.foldl (fun acc user => acc.Write (goBytes
        ("<tr><td>" ++ user.Username ++ "</td><td>" ++ user.Password ++ "</td></tr>"))) w
        = (us.map dumpRow).foldl ResponseWriter.Write w := by
    intro us
    induction us with
    | nil => intro w; rfl
    | cons u us ih => intro w; simp only [List.foldl_cons, List.map_cons, ih]; rfl
  unfold dumpUsers
  simp only [hfold]
  refine ⟨?_, ?_, ?_⟩
  · rw [Write_code, foldl_Write_code]
    · simp
    · rw [Write_code]; rfl
  · rw [Write_body, foldl_Write_body, Write_body]; rfl
  · unfold ResponseWriter.ResultHeader
    rw [Write_wroteHeader, Write_sent]
    have h1 : ∀ w : ResponseWriter, w.wroteHeader = true →
        ((List.map dumpRow users).foldl ResponseWriter.Write w).wroteHeader = true := by
      induction (List.map dumpRow users) with
      | nil => intro w hw; simpa using hw
      | cons c cs ih => intro w _; simp only [List.foldl_cons]; exact ih _ (Write_wroteHeader _ _)
    have h2 : ∀ w : ResponseWriter, w.wroteHeader = true →
        ((List.map dumpRow users).foldl ResponseWriter.Write w).sent = w.sent := by
      induction (List.map dumpRow users) with
      | nil => intro w _; rfl
      | cons c cs ih =>
        intro w hw
        simp only [List.foldl_cons]
        rw [ih _ (Write_wroteHeader _ _), Write_sent, hw]; rfl
    rw [h1 _ (Write_wroteHeader _ _)]
    simp only [if_true]
    rw [h2 _ (Write_wroteHeader _ _), Write_sent]
    rfl

theorem dumpRow_infix (users : List User) (u : User) (h : u ∈ users) :
    dumpRow u <:+: dumpBody users := by
  obtain ⟨a, b, hab⟩ := List.append_of_mem h
  unfold dumpBody
  rw [hab]
  simp only [List.map_append, List.map_cons, List.flatten_append, List.flatten_cons]
  refine ⟨goBytes
    "<h1>全ユーザー情報</h1><table border='1'><tr><th>ユーザー名</th><th>パスワード</th></tr>"
    ++ (a.map dumpRow).flatten, (b.map dumpRow).flatten ++ goBytes "</table>", ?_⟩
  simp [List.append_assoc]

theorem dumpRow_fields (u : User) :
    goBytes u.Username <:+: dumpRow u ∧ goBytes u.Password <:+: dumpRow u := by
  unfold dumpRow
  simp only [goBytes_append]
  exact ⟨⟨goBytes "<tr><td>", goBytes "</td><td>" ++ goBytes u.Password ++ goBytes "</td></tr>",
      by simp⟩,
    ⟨goBytes "<tr><td>" ++ goBytes u.Username ++ goBytes "</td><td>", goBytes "</td></tr>",
      by simp⟩⟩

/-- C4 (amended). For every submitted user name of the form p ++ "' OR '1'='1' --" ++ s
where p has neither a single quote nor a zero byte and s has no line feed, and for
every submitted password without a line feed: over a users table of at least two
rows, a POST to loginHandler returns status 200 and the table of all stored
credential pairs; the body holds the row of every stored pair, so every stored user
name and password. -/
theorem injection_lists_all (env : Env) (db : Database) (store : List User) (r : Request)
    (p s pw : String) (hm : r.Method = "POST") (hdb : createTempDatabase env = some db)
    (hsql : SqliteOver db store)
    (hu : r.FormValue "username" = p ++ "' OR '1'='1' --" ++ s)
    (hpw : r.FormValue "password" = pw)
    (hp1 : '\'' ∉ p.data) (hp0 : '\x00' ∉ p.data) (hs : '\n' ∉ s.data) (hn : '\n' ∉ pw.data)
    (hstore : 2 ≤ store.length) :
    (loginHandler env newRecorder r).Code = 200 ∧
    (loginHandler env newRecorder r).Body = dumpBody store ∧
    (∀ u ∈ store, dumpRow u <:+: (loginHandler env newRecorder r).Body ∧
      goBytes u.Username <:+: (loginHandler env newRecorder r).Body ∧
      goBytes u.Password <:+: (loginHandler env newRecorder r).Body) := by
  have hq : db.QueryContext (loginQuery (r.FormValue "username") (r.FormValue "password"))
      = some { scans := store.map some, err := false } := by
    have h1 := hsql (loginQuery (p ++ "' OR '1'='1' --" ++ s) pw)
    rw [sqliteSelect_injection store p s pw hp1 hp0 hs hn] at h1
    rw [hu, hpw]
    exact h1
  have husers : (store.map some).filterMap id = store := by simp
  have hw : loginHandler env newRecorder r = dumpUsers newRecorder store := by
    rw [loginHandler_post env db _ r hm hdb hq rfl]
    simp only [husers]
    have h0 : ¬ (store.length = 0) := by omega
    have h1 : store.length > 1 := by omega
    simp [h0, h1]
  obtain ⟨h1, h2, _⟩ := dumpUsers_facts store
  rw [hw]
  refine ⟨h1, h2, ?_⟩
  intro u hmem
  rw [h2]
  have hrow := dumpRow_infix store u hmem
  exact ⟨hrow, List.IsInfix.trans (dumpRow_fields u).1 hrow,
    List.IsInfix.trans (dumpRow_fields u).2 hrow⟩

/-- C4 (amended) at the request of the test, admin' OR '1'='1' -- with password
test, over the stored credentials. -/
theorem injection_lists_all_witness :
    (loginHandler (sampleEnv (sqliteDatabase storedUsers)) newRecorder
      (loginPost "admin' OR '1'='1' --" "test")).Body = dumpBody storedUsers :=
  (injection_lists_all (sampleEnv (sqliteDatabase storedUsers)) (sqliteDatabase storedUsers)
    storedUsers (loginPost "admin' OR '1'='1' --" "test") "admin" "" "test" rfl rfl
    (by intro sql; simp only [sqliteDatabase]; split <;> simp_all)
    (by decide) (by decide) (by decide) (by decide) (by decide) (by decide) (by decide)).2.1

/-- C4 as stated fails. The user name a'b' OR '1'='1' -- contains the injected text,
but the quote before it ends the literal early: SQLite rejects the query and the
response is the 500 page "Database Error". With the user name ' OR '1'='1' -- and
a password with a line feed, the comment ends at the line feed and the rest of the
password is an unterminated literal: again the 500 page. -/
theorem injection_counterexample :
    "' OR '1'='1' --".data <:+: "a'b' OR '1'='1' --".data ∧
    sqliteSelect storedUsers (loginQuery "a'b' OR '1'='1' --" "test") = .error ∧
    (loginHandler (sampleEnv (sqliteDatabase storedUsers)) newRecorder
      (loginPost "a'b' OR '1'='1' --" "test")).Code = 500 ∧
    (loginHandler (sampleEnv (sqliteDatabase storedUsers)) newRecorder
      (loginPost "a'b' OR '1'='1' --" "test")).Body = goBytes "Database Error\n" ∧
    sqliteSelect storedUsers (loginQuery "' OR '1'='1' --" "te\nst") = .error ∧
    (loginHandler (sampleEnv (sqliteDatabase storedUsers)) newRecorder
      (loginPost "' OR '1'='1' --" "te\nst")).Code = 500 := by
  refine ⟨?_, ?_, ?_, ?_, ?_, ?_⟩ <;> decide

/-! ## C5: a login that reads more than one user -/

/-- C5 (amended). For every POST to loginHandler whose credential query, answered
without error, yields more than one row that scans into a user: the handler writes,
with status 200, the HTML table of exactly the users read, in the order read (all
stored credentials when the condition selects every row), and it sets no cookie
and no Location. -/
theorem login_many_users (env : Env) (db : Database) (rows : Rows) (r : Request)
    (hm : r.Method = "POST") (hdb : createTempDatabase env = some db)
    (hq : db.QueryContext (loginQuery (r.FormValue "username") (r.FormValue "password"))
      = some rows)
    (herr : rows.err = false) (hmany : 1 < (rows.scans.filterMap id).length) :
    loginHandler env newRecorder r = dumpUsers newRecorder (rows.scans.filterMap id) ∧
    (loginHandler env newRecorder r).Code = 200 ∧
    (loginHandler env newRecorder r).Body = dumpBody (rows.scans.filterMap id) ∧
    (loginHandler env newRecorder r).ResultHeader = [("Content-Type", "text/html; charset=utf-8")] ∧
    (loginHandler env newRecorder r).ResultHeader.Values "Set-Cookie" = [] ∧
    (loginHandler env newRecorder r).ResultHeader.Has "Location" = false := by
  have hw : loginHandler env newRecorder r
      = dumpUsers newRecorder (rows.scans.filterMap id) := by
    rw [loginHandler_post env db rows r hm hdb hq herr]
    have h0 : ¬ ((rows.scans.filterMap id).length = 0) := by omega
    simp [h0, hmany]
  obtain ⟨h1, h2, h3⟩ := dumpUsers_facts (rows.scans.filterMap id)
  rw [hw]
  refine ⟨rfl, h1, h2, h3, ?_, ?_⟩
  · rw [h3]; decide
  · rw [h3]; decide

/-- C5 (amended) at a query that selects the rows of kanmu and admin. -/
theorem login_many_users_witness :
    (loginHandler (sampleEnv (sqliteDatabase storedUsers)) newRecorder
      (loginPost "' OR username='kanmu' OR username='admin' --" "")).Body =
      dumpBody [{ Username := "kanmu", Password := "gocon2025" },
        { Username := "admin", Password := "Adm1n$ecur3" }] :=
  (login_many_users (sampleEnv (sqliteDatabase storedUsers)) (sqliteDatabase storedUsers)
    { scans := [some { Username := "kanmu", Password := "gocon2025" },
        some { Username := "admin", Password := "Adm1n$ecur3" }], err := false }
    (loginPost "' OR username='kanmu' OR username='admin' --" "")
    rfl rfl (by decide) rfl (by decide)).2.2.1

set_option maxRecDepth 20000 in
/-- C5 as stated fails. Over the stored credentials the user name
' OR username='kanmu' OR username='admin' -- matches two rows; the table written
holds these two rows only: the stored pair zip / qwerty123456 is not in the body. -/
theorem login_many_users_counterexample :
    sqliteSelect storedUsers
        (loginQuery "' OR username='kanmu' OR username='admin' --" "") =
      .rows [{ Username := "kanmu", Password := "gocon2025" },
        { Username := "admin", Password := "Adm1n$ecur3" }] ∧
    ({ Username := "zip", Password := "qwerty123456" } : User) ∈ storedUsers ∧
    ¬ (goBytes "zip" <:+: (loginHandler (sampleEnv (sqliteDatabase storedUsers)) newRecorder
      (loginPost "' OR username='kanmu' OR username='admin' --" "")).Body) ∧
    ¬ (goBytes "qwerty123456" <:+:
      (loginHandler (sampleEnv (sqliteDatabase storedUsers)) newRecorder
        (loginPost "' OR username='kanmu' OR username='admin' --" "")).Body) := by
  refine ⟨?_, ?_, ?_, ?_⟩ <;> decide

/-! ## C6: the dashboard -/

/-- C6 (amended). For every request to dashboardHandler with a "user" cookie, the
handler renders the dashboard template on `dashboardData` of the cookie value. The
title and the recipe list depend on the value only through whether it equals
"kanmu": for "kanmu" the title is "kanmuのダッシュボード" and the recipes are ids 2,
3, 5 in that order; for every other value, the empty string included, the title is
"レシピダッシュボード" and the only recipe is id 13. (The welcome message embeds the
cookie value.) -/
theorem dashboard_branch (env : Env) (r : Request) (v : String)
    (h : r.Cookie "user" = some v) :
    dashboardHandler env newRecorder r =
      (match renderTemplate env newRecorder env.dashboardHTML
          (.dashboard (dashboardData v)) "dashboard" with
        | (w2, true) => httpError w2 "Template Error" 500
        | (w2, false) => w2) ∧
    (v = "kanmu" → (dashboardData v).Title = "kanmuのダッシュボード" ∧
      (dashboardData v).Recipes.map (fun x => x.ID) = [2, 3, 5]) ∧
    (v ≠ "kanmu" → (dashboardData v).Title = "レシピダッシュボード" ∧
      (dashboardData v).Recipes.map (fun x => x.ID) = [13]) ∧
    (∀ v2 : String, (v = "kanmu" ↔ v2 = "kanmu") →
      (dashboardData v).Title = (dashboardData v2).Title ∧
      (dashboardData v).Recipes = (dashboardData v2).Recipes) := by
  refine ⟨?_, ?_, ?_, ?_⟩
  · simp [dashboardHandler, requireAuth_some _ _ _ h]
  · intro hv; simp [dashboardData, kanmuUser, hv]
  · intro hv; simp [dashboardData, kanmuUser, hv]
  · intro v2 hiff
    by_cases hv : v = "kanmu"
    · have hv2 : v2 = "kanmu" := hiff.mp hv
      simp [dashboardData, kanmuUser, hv, hv2]
    · have hv2 : ¬ (v2 = "kanmu") := fun h2 => hv (hiff.mpr h2)
      simp [dashboardData, kanmuUser, hv, hv2]

/-- C6 (amended) at the cookie user=admin. -/
theorem dashboard_branch_witness :
    (dashboardData "admin").Title = "レシピダッシュボード" ∧
    (dashboardData "admin").Recipes.map (fun x => x.ID) = [13] :=
  (dashboard_branch (sampleEnv (sqliteDatabase storedUsers)) (getAs "admin" "/dashboard" [])
    "admin" rfl).2.2.1 (by decide)

/-- C6 as stated fails. The cookie values "admin" and "" both differ from "kanmu",
yet the dashboard data differ: the welcome message embeds the value. -/
theorem dashboard_counterexample :
    ("admin" = "kanmu" ↔ "" = "kanmu") ∧
    dashboardData "admin" ≠ dashboardData "" ∧
    (dashboardData "admin").WelcomeMessage
      = "✨ こんにちは、adminさん！利用可能なレシピをご覧ください。" ∧
    (dashboardData "").WelcomeMessage = "✨ こんにちは、さん！利用可能なレシピをご覧ください。" := by
  refine ⟨?_, ?_, ?_, ?_⟩ <;> decide

/-! ## Lemmas on the recipe table -/

/-- The recipe table has exactly the ids 2, 3, 4, 5 and 13. -/
theorem getRecipe_none (env : Env) (n : Int) (h : n ∉ [2, 3, 4, 5, 13]) :
    getRecipe env n = none := by
  simp only [List.mem_cons, List.mem_singleton, List.not_mem_nil, or_false, not_or] at h
  obtain ⟨h2, h3, h4, h5, h13⟩ := h
  have e2 : (n == 2) = false := by simpa using h2
  have e3 : (n == 3) = false := by simpa using h3
  have e4 : (n == 4) = false := by simpa using h4
  have e5 : (n == 5) = false := by simpa using h5
  have e13 : (n == 13) = false := by simpa using h13
  simp only [getRecipe, recipeDatabase, List.lookup, e2, e3, e4, e5, e13]

/-- Every recipe of the table has the id it is stored under and is a JPEG. -/
theorem getRecipe_some (env : Env) (n : Int) (recipe : Recipe)
    (h : getRecipe env n = some recipe) :
    n ∈ [2, 3, 4, 5, 13] ∧ recipe.ID = n ∧ recipe.ContentType = "image/jpeg" := by
  by_cases hn : n ∈ [2, 3, 4, 5, 13]
  · refine ⟨hn, ?_⟩
    simp only [List.mem_cons, List.mem_singleton, List.not_mem_nil, or_false] at hn
    rcases hn with rfl | rfl | rfl | rfl | rfl <;>
      · simp only [getRecipe, recipeDatabase, List.lookup] at h
        injection h with h
        subst h
        exact ⟨rfl, rfl⟩
  · rw [getRecipe_none env n hn] at h
    exact absurd h (by simp)

/-- The detail data exist whenever the recipe does. -/
theorem getRecipeDetailData_some (env : Env) (n : Int) (recipe : Recipe)
    (h : getRecipe env n = some recipe) :
    getRecipeDetailData env n = some {
      ID := recipe.ID, Name := recipe.Name, Description := recipe.Description,
      Emoji := recipe.Emoji, Steps := recipe.Steps, ShowDownload := n == 13 } := by
  unfold getRecipe at h
  simp [getRecipeDetailData, h]

/-- The response of `showNotFound` in a fresh writer. -/
theorem showNotFound_facts (env : Env) :
    (showNotFound env newRecorder).Code = 404 ∧
    (showNotFound env newRecorder).Body = env.notFoundHTML ∧
    (showNotFound env newRecorder).ResultHeader = [("Content-Type", "text/html; charset=utf-8")] := by
  simp [showNotFound, newRecorder, ResponseWriter.mapHeader, ResponseWriter.WriteHeader,
    ResponseWriter.Write, ResponseWriter.ResultHeader, Header.Set]

/-- The handler on an authenticated request for a recipe of the table. -/
theorem recipeHandler_found (env : Env) (r : Request) (v : String) (n : Int)
    (recipe : Recipe) (d : RecipeDetailData) (h : r.Cookie "user" = some v)
    (hid : strconvAtoi (stringsTrimPrefix r.Path "/recipe/") = some n)
    (hrec : getRecipe env n = some recipe) (hd : getRecipeDetailData env n = some d) :
    recipeHandler env newRecorder r =
      if stringsContains (r.QueryGet "format") "image" then
        (newRecorder.mapHeader fun h => h.Set "Content-Type" recipe.ContentType).Write
          recipe.Image
      else
        match renderTemplate env newRecorder env.recipeDetailHTML (.recipe d) "recipe" with
        | (w2, true) => httpError w2 "Template Error" 500
        | (w2, false) => w2 := by
  simp only [recipeHandler, requireAuth_some _ _ _ h, hid, hrec, hd]

/-- The image response in a fresh writer. -/
theorem image_facts (recipe : Recipe) :
    (newRecorder.mapHeader fun h => h.Set "Content-Type" recipe.ContentType).Write recipe.Image
      = { header := [("Content-Type", recipe.ContentType)], wroteHeader := true, Code := 200,
          sent := [("Content-Type", recipe.ContentType)], Body := recipe.Image } := by
  simp [newRecorder, ResponseWriter.mapHeader, ResponseWriter.WriteHeader,
    ResponseWriter.Write, Header.Set]

/-! ## C7: the recipe handler does not look at the identity -/

/-- C7. Two requests to recipeHandler with the same path and the same query that both
carry a "user" cookie get equal responses (status, headers, body), whatever the two
cookie values are. In particular, for each id of 2, 3, 4, 5, 13 (4 is on no
dashboard) the path "/recipe/<id>" is served to every cookie value: the recipe
stored under that id is found, and the response to both requests is, with status
200, either the stored image of that recipe under its content type (when the format
value contains "image") or the recipe template executed on the detail data of that
recipe, which carry its ID, Name, Description, Emoji and Steps (when the template
renders them). -/
theorem recipe_ignores_identity (env : Env) (r1 r2 : Request) (v1 v2 : String)
    (hpath : r1.Path = r2.Path) (hquery : r1.Query = r2.Query)
    (h1 : r1.Cookie "user" = some v1) (h2 : r2.Cookie "user" = some v2) :
    recipeHandler env newRecorder r1 = recipeHandler env newRecorder r2 ∧
    (∀ n : Int, n ∈ [2, 3, 4, 5, 13] → r1.Path = "/recipe/" ++ toString n →
      ∃ recipe d, getRecipe env n = some recipe ∧ recipe.ID = n ∧
        getRecipeDetailData env n = some d ∧
        d.ID = n ∧ d.Name = recipe.Name ∧ d.Description = recipe.Description ∧
        d.Emoji = recipe.Emoji ∧ d.Steps = recipe.Steps ∧
        ∀ r ∈ [r1, r2],
          (stringsContains (r1.QueryGet "format") "image" = true →
            (recipeHandler env newRecorder r).Code = 200 ∧
            (recipeHandler env newRecorder r).Body = recipe.Image ∧
            (recipeHandler env newRecorder r).ResultHeader
              = [("Content-Type", recipe.ContentType)]) ∧
          (stringsContains (r1.QueryGet "format") "image" = false →
            Renders env "recipe" env.recipeDetailHTML (.recipe d) →
            (recipeHandler env newRecorder r).Code = 200 ∧
            (recipeHandler env newRecorder r).Body =
              (env.templateExecute "recipe" env.recipeDetailHTML (.recipe d)).1.flatten ∧
            (recipeHandler env newRecorder r).ResultHeader
              = [("Content-Type", "text/html; charset=utf-8")])) := by
  have heq : recipeHandler env newRecorder r1 = recipeHandler env newRecorder r2 := by
    simp only [recipeHandler, requireAuth_some _ _ _ h1, requireAuth_some _ _ _ h2, hpath,
      Request.QueryGet, hquery]
  refine ⟨heq, ?_⟩
  intro n hn hp
  have hid : strconvAtoi (stringsTrimPrefix r1.Path "/recipe/") = some n := by
    rw [hp]
    simp only [List.mem_cons, List.mem_singleton, List.not_mem_nil, or_false] at hn
    rcases hn with rfl | rfl | rfl | rfl | rfl <;> decide
  have hsome : ∃ recipe, getRecipe env n = some recipe := by
    simp only [List.mem_cons, List.mem_singleton, List.not_mem_nil, or_false] at hn
    rcases hn with rfl | rfl | rfl | rfl | rfl <;> exact ⟨_, rfl⟩
  obtain ⟨recipe, hrec⟩ := hsome
  have hd := getRecipeDetailData_some env n recipe hrec
  have hrid := (getRecipe_some env n recipe hrec).2.1
  have hw := recipeHandler_found env r1 v1 n recipe _ h1 hid hrec hd
  refine ⟨recipe, _, hrec, hrid, hd, hrid, rfl, rfl, rfl, rfl, ?_⟩
  intro r hr
  have hr1 : recipeHandler env newRecorder r = recipeHandler env newRecorder r1 := by
    simp only [List.mem_cons, List.mem_singleton, List.not_mem_nil, or_false] at hr
    rcases hr with rfl | rfl
    · rfl
    · exact heq.symm
  rw [hr1]
  constructor
  · intro himg
    rw [himg, if_pos rfl, image_facts] at hw
    rw [hw]
    exact ⟨rfl, rfl, rfl⟩
  · intro himg hrender
    rw [himg] at hw
    simp only [Bool.false_eq_true, if_false] at hw
    rw [renderTemplate_renders env _ _ _ hrender] at hw
    rw [hw]
    exact rendered_facts _

/-- C7 at recipe 4, asked for by admin and by kanmu: both get the same page, the
recipe template followed by the name さしみ料理. -/
theorem recipe_ignores_identity_witness :
    recipeHandler (sampleEnv (sqliteDatabase storedUsers)) newRecorder
        (getAs "admin" "/recipe/4" [])
      = recipeHandler (sampleEnv (sqliteDatabase storedUsers)) newRecorder
        (getAs "kanmu" "/recipe/4" []) ∧
    (recipeHandler (sampleEnv (sqliteDatabase storedUsers)) newRecorder
        (getAs "admin" "/recipe/4" [])).Code = 200 ∧
    (recipeHandler (sampleEnv (sqliteDatabase storedUsers)) newRecorder
        (getAs "admin" "/recipe/4" [])).Body = goBytes "recipe:" ++ goBytes "さしみ料理" ∧
    (recipeHandler (sampleEnv (sqliteDatabase storedUsers)) newRecorder
        (getAs "kanmu" "/recipe/4" [])).Body = goBytes "recipe:" ++ goBytes "さしみ料理" := by
  have h := recipe_ignores_identity (sampleEnv (sqliteDatabase storedUsers))
    (getAs "admin" "/recipe/4" []) (getAs "kanmu" "/recipe/4" []) "admin" "kanmu"
    rfl rfl rfl rfl
  obtain ⟨recipe, d, _, _, hd, _, _, _, _, _, hall⟩ := h.2 4 (by decide) rfl
  injection hd with hd
  subst hd
  have ha := (hall (getAs "admin" "/recipe/4" []) (by simp)).2 (by decide) ⟨rfl, rfl⟩
  have hk := (hall (getAs "kanmu" "/recipe/4" []) (by simp)).2 (by decide) ⟨rfl, rfl⟩
  refine ⟨h.1, ha.1, ?_, ?_⟩
  · rw [ha.2.1]; decide
  · rw [hk.2.1]; decide

/-! ## C8: unknown recipes -/

/-- C8. For every authenticated request to recipeHandler whose path without the
prefix "/recipe/" is rejected by strconv.Atoi (as the empty string, "abc" and "13/"
are) or parses to an integer outside 2, 3, 4, 5, 13, the response is that of
`showNotFound`: status 404 and the not-found page as body, whatever the query is. -/
theorem recipe_not_found (env : Env) (r : Request) (v : String)
    (h : r.Cookie "user" = some v)
    (hid : strconvAtoi (stringsTrimPrefix r.Path "/recipe/") = none ∨
      ∃ n, strconvAtoi (stringsTrimPrefix r.Path "/recipe/") = some n ∧
        n ∉ [2, 3, 4, 5, 13]) :
    recipeHandler env newRecorder r = showNotFound env newRecorder ∧
    (recipeHandler env newRecorder r).Code = 404 ∧
    (recipeHandler env newRecorder r).Body = env.notFoundHTML ∧
    (recipeHandler env newRecorder r).ResultHeader = [("Content-Type", "text/html; charset=utf-8")] ∧
    strconvAtoi "" = none ∧ strconvAtoi "abc" = none ∧ strconvAtoi "13/" = none := by
  have hw : recipeHandler env newRecorder r = showNotFound env newRecorder := by
    rcases hid with hnone | ⟨n, hsome, hn⟩
    · simp only [recipeHandler, requireAuth_some _ _ _ h, hnone]
    · simp only [recipeHandler, requireAuth_some _ _ _ h, hsome, getRecipe_none env n hn]
  obtain ⟨h1, h2, h3⟩ := showNotFound_facts env
  rw [hw]
  exact ⟨rfl, h1, h2, h3, by decide, by decide, by decide⟩

/-- C8 at `/recipe/999?format=image`, asked for by kanmu. -/
theorem recipe_not_found_witness :
    (recipeHandler (sampleEnv (sqliteDatabase storedUsers)) newRecorder
      (getAs "kanmu" "/recipe/999" [("format", "image")])).Code = 404 :=
  (recipe_not_found (sampleEnv (sqliteDatabase storedUsers))
    (getAs "kanmu" "/recipe/999" [("format", "image")]) "kanmu" rfl
    (Or.inr ⟨999, by decide, by decide⟩)).2.1

/-! ## C9: the download -/

/-- C9. For every authenticated request to downloadHandler: when the path without
the prefix "/download/" is exactly "flag.zip", the response has status 200, the
archive bytes as body, Content-Type "application/zip", Content-Disposition
attachment; filename="flag.zip" and Content-Length the decimal length of the
archive; for every other filename the response is that of `showNotFound`, status
404 with the not-found page as body, so no archive byte is written. -/
theorem download_flag (env : Env) (r : Request) (v : String)
    (h : r.Cookie "user" = some v) :
    (stringsTrimPrefix r.Path "/download/" = "flag.zip" →
      (downloadHandler env newRecorder r).Code = 200 ∧
      (downloadHandler env newRecorder r).Body = env.Ingredients ∧
      (downloadHandler env newRecorder r).ResultHeader.Get "Content-Type" = "application/zip" ∧
      (downloadHandler env newRecorder r).ResultHeader.Get "Content-Disposition"
        = "attachment; filename=\"flag.zip\"" ∧
      (downloadHandler env newRecorder r).ResultHeader.Get "Content-Length"
        = strconvItoa env.Ingredients.length) ∧
    (stringsTrimPrefix r.Path "/download/" ≠ "flag.zip" →
      downloadHandler env newRecorder r = showNotFound env newRecorder ∧
      (downloadHandler env newRecorder r).Code = 404 ∧
      (downloadHandler env newRecorder r).Body = env.notFoundHTML) := by
  constructor
  · intro hf
    simp [downloadHandler, requireAuth_some _ _ _ h, hf, flagFilename, newRecorder,
      ResponseWriter.mapHeader, ResponseWriter.WriteHeader, ResponseWriter.Write,
      ResponseWriter.ResultHeader, Header.Set, Header.Get, List.lookup, List.filter]
  · intro hf
    have hw : downloadHandler env newRecorder r = showNotFound env newRecorder := by
      simp [downloadHandler, requireAuth_some _ _ _ h, hf, flagFilename]
    obtain ⟨h1, h2, _⟩ := showNotFound_facts env
    rw [hw]
    exact ⟨rfl, h1, h2⟩

/-- C9 at `/download/flag.zip`, asked for by admin. -/
theorem download_flag_witness :
    (downloadHandler (sampleEnv (sqliteDatabase storedUsers)) newRecorder
      (getAs "admin" "/download/flag.zip" [])).Body = [80, 75, 3, 4] :=
  ((download_flag (sampleEnv (sqliteDatabase storedUsers))
    (getAs "admin" "/download/flag.zip" []) "admin" rfl).1 (by decide)).2.1

/-! ## C10: the image of a recipe -/

/-- C10. For every authenticated request to recipeHandler for a recipe of the table
with query format=image, the response has status 200, the stored image bytes of
that recipe as body, and the stored ContentType of that recipe, "image/jpeg", as
its only header; nothing of a template is in the response. -/
theorem recipe_image (env : Env) (r : Request) (v : String) (n : Int) (recipe : Recipe)
    (h : r.Cookie "user" = some v)
    (hid : strconvAtoi (stringsTrimPrefix r.Path "/recipe/") = some n)
    (hrec : getRecipe env n = some recipe) (hfmt : r.QueryGet "format" = "image") :
    recipeHandler env newRecorder r =
      { header := [("Content-Type", recipe.ContentType)], wroteHeader := true, Code := 200,
        sent := [("Content-Type", recipe.ContentType)], Body := recipe.Image } ∧
    (recipeHandler env newRecorder r).Code = 200 ∧
    (recipeHandler env newRecorder r).Body = recipe.Image ∧
    (recipeHandler env newRecorder r).ResultHeader = [("Content-Type", recipe.ContentType)] ∧
    recipe.ContentType = "image/jpeg" := by
  have hc : stringsContains (r.QueryGet "format") "image" = true := by rw [hfmt]; decide
  have hw := recipeHandler_found env r v n recipe _ h hid hrec
    (getRecipeDetailData_some env n recipe hrec)
  rw [hc, if_pos rfl, image_facts] at hw
  rw [hw]
  exact ⟨rfl, rfl, rfl, rfl, (getRecipe_some env n recipe hrec).2.2⟩

/-- C10 at `/recipe/2?format=image`, asked for by kanmu. -/
theorem recipe_image_witness :
    (recipeHandler (sampleEnv (sqliteDatabase storedUsers)) newRecorder
      (getAs "kanmu" "/recipe/2" [("format", "image")])).Code = 200 :=
  (recipe_image (sampleEnv (sqliteDatabase storedUsers))
    (getAs "kanmu" "/recipe/2" [("format", "image")]) "kanmu" 2 _
    rfl (by decide) rfl rfl).2.1

/-! ## C11: the detail data of a recipe -/

/-- Every recipe of the table has at least one step. -/
theorem getRecipe_steps (env : Env) (n : Int) (recipe : Recipe)
    (h : getRecipe env n = some recipe) : recipe.Steps ≠ [] := by
  have hn := (getRecipe_some env n recipe h).1
  simp only [List.mem_cons, List.mem_singleton, List.not_mem_nil, or_false] at hn
  rcases hn with rfl | rfl | rfl | rfl | rfl <;>
    · simp only [getRecipe, recipeDatabase, List.lookup] at h
      injection h with h
      subst h
      simp

/-- C11. For every integer id, getRecipeDetailData(id) is nil exactly when
getRecipe(id) is nil; otherwise its ID, Name, Description, Emoji and Steps are
those of getRecipe(id), its Steps are not empty, and ShowDownload is true if and
only if id = 13. -/
theorem detail_data_of_recipe (env : Env) (id : Int) :
    (getRecipeDetailData env id = none ↔ getRecipe env id = none) ∧
    (∀ recipe, getRecipe env id = some recipe →
      ∃ d, getRecipeDetailData env id = some d ∧
        d.ID = recipe.ID ∧ d.Name = recipe.Name ∧ d.Description = recipe.Description ∧
        d.Emoji = recipe.Emoji ∧ d.Steps = recipe.Steps ∧ d.Steps ≠ [] ∧
        (d.ShowDownload = true ↔ id = 13)) := by
  constructor
  · cases hrec : getRecipe env id with
    | none =>
      unfold getRecipe at hrec
      simp [getRecipeDetailData, hrec]
    | some recipe => simp [getRecipeDetailData_some env id recipe hrec]
  · intro recipe hrec
    refine ⟨_, getRecipeDetailData_some env id recipe hrec, rfl, rfl, rfl, rfl, rfl,
      getRecipe_steps env id recipe hrec, ?_⟩
    simp

/-! ## C12: the recipe table -/

/-- C12. For every integer id, getRecipe(id) is non-nil if and only if id is one of
2, 3, 4, 5, 13; every recipe it returns has its ID field equal to the id it was
looked up by; the names under 2, 3, 4, 5, 13 are ぎょうざ, いくらとポテト, さしみ料理,
ピザ, ステーキソース; getRecipe(999) is nil. -/
theorem recipe_table (env : Env) (id : Int) :
    (getRecipe env id ≠ none ↔ id ∈ [2, 3, 4, 5, 13]) ∧
    (∀ recipe, getRecipe env id = some recipe → recipe.ID = id) ∧
    (getRecipe env 2).map (fun x => x.Name) = some "ぎょうざ" ∧
    (getRecipe env 3).map (fun x => x.Name) = some "いくらとポテト" ∧
    (getRecipe env 4).map (fun x => x.Name) = some "さしみ料理" ∧
    (getRecipe env 5).map (fun x => x.Name) = some "ピザ" ∧
    (getRecipe env 13).map (fun x => x.Name) = some "ステーキソース" ∧
    getRecipe env 999 = none := by
  refine ⟨?_, ?_, rfl, rfl, rfl, rfl, rfl, rfl⟩
  · constructor
    · intro h
      by_contra hn
      exact h (getRecipe_none env id hn)
    · intro hn
      simp only [List.mem_cons, List.mem_singleton, List.not_mem_nil, or_false] at hn
      rcases hn with rfl | rfl | rfl | rfl | rfl <;>
        · simp [getRecipe, recipeDatabase, List.lookup]
  · intro recipe hrec
    exact (getRecipe_some env id recipe hrec).2.1

/-! ## C13: what counts as authenticated -/

/-- The lookup finds a cookie exactly when one of that name is in the list. -/
theorem lookup_isSome_iff (name : String) (cookies : List (String × String)) :
    (∃ v, cookies.lookup name = some v) ↔ ∃ c ∈ cookies, c.1 = name := by
  induction cookies with
  | nil => simp
  | cons c cs ih =>
    obtain ⟨k, v⟩ := c
    by_cases hk : name = k
    · subst hk
      simp [List.lookup]
    · have hb : (name == k) = false := by simpa using hk
      have hk2 : ¬ (k = name) := fun h => hk h.symm
      simp only [List.lookup, hb, ih, List.mem_cons]
      constructor
      · rintro ⟨c, hc, hn⟩
        exact ⟨c, Or.inr hc, hn⟩
      · rintro ⟨c, hc | hc, hn⟩
        · subst hc
          exact absurd hn hk2
        · exact ⟨c, hc, hn⟩

/-- C13. requireAuth reports authenticated if and only if the request carries a
cookie named "user"; for every value of that cookie, the empty string and names of
no stored user included, it returns the value unchanged with true and leaves the
writer as it was. It is a function of the writer and the request alone: no
credential store, signature or expiry enters. -/
theorem requireAuth_presence (w : ResponseWriter) (r : Request) :
    ((requireAuth w r).2.2 = true ↔ ∃ c ∈ r.Cookies, c.1 = "user") ∧
    (∀ v, r.Cookie "user" = some v → requireAuth w r = (w, v, true)) ∧
    (∀ v rest, r.Cookies = ("user", v) :: rest → requireAuth w r = (w, v, true)) := by
  refine ⟨?_, ?_, ?_⟩
  · rw [← lookup_isSome_iff]
    cases h : r.Cookie "user" with
    | none =>
      rw [requireAuth_none w r h]
      unfold Request.Cookie at h
      simp [h]
    | some v =>
      rw [requireAuth_some w r v h]
      unfold Request.Cookie at h
      simp [h]
  · intro v h
    exact requireAuth_some w r v h
  · intro v rest h
    apply requireAuth_some
    simp [Request.Cookie, h, List.lookup]

/-! ## C15: when the image is served -/

/-- What the template branch leaves as Content-Type is not an image type. -/
theorem render_branch_contentType (env : Env) (text : Bytes) (data : TemplateData)
    (name : String) :
    (match renderTemplate env newRecorder text data name with
      | (w2, true) => httpError w2 "Template Error" 500
      | (w2, false) => w2).ResultHeader.Get "Content-Type" ≠ "image/jpeg" := by
  unfold renderTemplate
  by_cases hp : env.templateParse name text = true
  · simp only [hp, Bool.not_true, Bool.false_eq_true, if_false]
    generalize hw : (env.templateExecute name text data).1.foldl ResponseWriter.Write
      (newRecorder.mapHeader fun h => h.Set "Content-Type" "text/html; charset=utf-8") = w2
    have hres : w2.ResultHeader = [("Content-Type", "text/html; charset=utf-8")] := by
      rw [← hw]; exact (rendered_facts _).2.2
    have hhead : w2.header = [("Content-Type", "text/html; charset=utf-8")] := by
      rw [← hw, foldl_Write_header]; rfl
    cases hf : (env.templateExecute name text data).2 with
    | false =>
      simp only []
      rw [hres]; decide
    | true =>
      simp only []
      by_cases hwrote : w2.wroteHeader = true
      · have hsent : w2.sent = [("Content-Type", "text/html; charset=utf-8")] := by
          simpa [ResponseWriter.ResultHeader, hwrote] using hres
        simp [httpError, ResponseWriter.mapHeader, ResponseWriter.WriteHeader,
          ResponseWriter.Write, ResponseWriter.ResultHeader, hwrote, hsent]
        decide
      · simp [httpError, ResponseWriter.mapHeader, ResponseWriter.WriteHeader,
          ResponseWriter.Write, ResponseWriter.ResultHeader, hwrote, hhead, Header.Set,
          Header.Del, Header.Get, List.lookup, List.filter]
  · simp only [hp, Bool.not_false, if_true]
    simp [httpError, newRecorder, ResponseWriter.mapHeader, ResponseWriter.WriteHeader,
      ResponseWriter.Write, ResponseWriter.ResultHeader, Header.Set, Header.Del, Header.Get,
      List.lookup, List.filter]

/-- C15. For every authenticated request to recipeHandler for a recipe of the table,
the response is the raw image (the stored bytes under the stored content type) if
and only if the value of the first "format" query parameter, the empty string when
there is none, contains "image"; so "notimage" and "image/png" give the image. For
every other value the handler goes on to the recipe template with the detail data
of the recipe, and the response does not carry the image content type. -/
theorem image_iff_format (env : Env) (r : Request) (v : String) (n : Int) (recipe : Recipe)
    (h : r.Cookie "user" = some v)
    (hid : strconvAtoi (stringsTrimPrefix r.Path "/recipe/") = some n)
    (hrec : getRecipe env n = some recipe) :
    (recipeHandler env newRecorder r =
        { header := [("Content-Type", recipe.ContentType)], wroteHeader := true, Code := 200,
          sent := [("Content-Type", recipe.ContentType)], Body := recipe.Image }
      ↔ stringsContains ((r.Query.lookup "format").getD "") "image" = true) ∧
    (stringsContains ((r.Query.lookup "format").getD "") "image" = false →
      ∃ d, getRecipeDetailData env n = some d ∧
        recipeHandler env newRecorder r =
          (match renderTemplate env newRecorder env.recipeDetailHTML (.recipe d) "recipe" with
            | (w2, true) => httpError w2 "Template Error" 500
            | (w2, false) => w2)) ∧
    stringsContains "notimage" "image" = true ∧
    stringsContains "image/png" "image" = true ∧
    stringsContains "" "image" = false ∧
    stringsContains "png" "image" = false := by
  obtain ⟨d, hd⟩ : ∃ d, getRecipeDetailData env n = some d :=
    ⟨_, getRecipeDetailData_some env n recipe hrec⟩
  have hw := recipeHandler_found env r v n recipe d h hid hrec hd
  have hq : r.QueryGet "format" = (r.Query.lookup "format").getD "" := rfl
  rw [hq] at hw
  refine ⟨?_, ?_, by decide, by decide, by decide, by decide⟩
  · constructor
    · intro himg
      by_contra hc
      have hfalse : stringsContains ((r.Query.lookup "format").getD "") "image" = false := by
        simpa using hc
      rw [hfalse] at hw
      simp only [Bool.false_eq_true, if_false] at hw
      have hct := render_branch_contentType env env.recipeDetailHTML (.recipe d) "recipe"
      rw [← hw, himg] at hct
      apply hct
      simp [ResponseWriter.ResultHeader, Header.Get, List.lookup,
        (getRecipe_some env n recipe hrec).2.2]
    · intro hc
      rw [hc, if_pos rfl, image_facts] at hw
      exact hw
  · intro hc
    rw [hc] at hw
    simp only [Bool.false_eq_true, if_false] at hw
    exact ⟨_, hd, hw⟩

/-- C15 at `/recipe/2?format=notimage`, asked for by kanmu. -/
theorem image_iff_format_witness :
    (recipeHandler (sampleEnv (sqliteDatabase storedUsers)) newRecorder
      (getAs "kanmu" "/recipe/2" [("format", "notimage")])).Body = [255, 216, 1] :=
  have h := (image_iff_format (sampleEnv (sqliteDatabase storedUsers))
    (getAs "kanmu" "/recipe/2" [("format", "notimage")]) "kanmu" 2 _
    rfl (by decide) rfl).1.mpr (by decide)
  by rw [h]; rfl

/-! ## C16: the dashboard entries and the recipe table -/

/-- C16. Every recipe entry of the dashboard data, for the cookie value "kanmu" (ids
2, 3, 5) and for every other value (id 13), has an id that is in recipeDatabase and
the same Name and Emoji as the recipe stored under that id; id 4 is in
recipeDatabase and is listed for no cookie value. -/
theorem dashboard_entries_in_table (env : Env) (v : String) :
    (∀ e ∈ (dashboardData v).Recipes, ∃ recipe, getRecipe env e.ID = some recipe ∧
      recipe.Name = e.Name ∧ recipe.Emoji = e.Emoji) ∧
    ((dashboardData v).Recipes.map (fun e => e.ID) = [2, 3, 5] ∨
      (dashboardData v).Recipes.map (fun e => e.ID) = [13]) ∧
    (∃ recipe, getRecipe env 4 = some recipe) ∧
    (∀ e ∈ (dashboardData v).Recipes, e.ID ≠ 4) := by
  by_cases hv : v = kanmuUser
  · refine ⟨?_, Or.inl ?_, ⟨_, rfl⟩, ?_⟩
    · intro e he
      simp only [dashboardData, hv, if_true, List.mem_cons, List.mem_singleton,
        List.not_mem_nil, or_false] at he
      rcases he with rfl | rfl | rfl <;> exact ⟨_, rfl, rfl, rfl⟩
    · simp [dashboardData, hv]
    · intro e he
      simp only [dashboardData, hv, if_true, List.mem_cons, List.mem_singleton,
        List.not_mem_nil, or_false] at he
      rcases he with rfl | rfl | rfl <;> decide
  · refine ⟨?_, Or.inr ?_, ⟨_, rfl⟩, ?_⟩
    · intro e he
      simp only [dashboardData, hv, if_false, List.mem_singleton] at he
      subst he
      exact ⟨_, rfl, rfl, rfl⟩
    · simp [dashboardData, hv]
    · intro e he
      simp only [dashboardData, hv, if_false, List.mem_singleton] at he
      subst he
      decide

/-! ## C14: credentials without a quote -/

/-- The tokens between the two literals of the login query. -/
theorem lexFrom_middle (u : List Char) (ts : List Token) (rest : List Char) :
    lexFrom (.inStr u) ts ("' AND password='".data ++ rest) =
      lexFrom (.inStr []) (ts ++ [.str ⟨u⟩, .word "AND", .word "PASSWORD", .eq]) rest := by
  simp [lexFrom, lexStep, lexStart, LexStep.after, mkWord, sqlSpace, sqlIdStart, sqlIdChar]

/-- The closing quote at the end of the login query. -/
theorem lexFrom_closing (p : List Char) (ts : List Token) :
    lexFrom (.inStr p) ts "'".data = .tokens (ts ++ [.str ⟨p⟩]) := by
  simp [lexFrom, lexStep, lexEnd]

/-- The tokens of a login query whose user name and password have neither a quote
nor a zero byte. -/
theorem sqlTokens_plain (u pw : String) (hu : '\'' ∉ u.data) (hu0 : '\x00' ∉ u.data)
    (hp : '\'' ∉ pw.data) (hp0 : '\x00' ∉ pw.data) :
    sqlTokens (loginQuery u pw) =
      .tokens [.word "SELECT", .word "USERNAME", .comma, .word "PASSWORD", .word "FROM",
        .word "USERS", .word "WHERE", .word "USERNAME", .eq, .str u, .word "AND",
        .word "PASSWORD", .eq, .str pw] := by
  have hdata : (loginQuery u pw).data =
      "SELECT username, password FROM users WHERE username='".data ++ (u.data ++
        ("' AND password='".data ++ (pw.data ++ "'".data))) := by
    simp [loginQuery, String.data_append, List.append_assoc]
  unfold sqlTokens
  rw [hdata, lexFrom_head, lexFrom_inStr u.data hu hu0, lexFrom_middle,
    lexFrom_inStr pw.data hp hp0, lexFrom_closing]
  rfl

/-- The conjunction of the two comparisons selects the rows equal to the pair. -/
theorem selectRows_plain (u pw : String) (store : List User) :
    selectRows (.and (.eq .username (.text u)) (.eq .password (.text pw))) store
      = some (store.filter fun x => decide (x.Username = u ∧ x.Password = pw)) := by
  induction store with
  | nil => rfl
  | cons x xs ih =>
    have hrow : rowMatches (.and (.eq .username (.text u)) (.eq .password (.text pw))) x
        = some (decide (x.Username = u ∧ x.Password = pw)) := by
      by_cases h1 : x.Username = u <;> by_cases h2 : x.Password = pw <;>
        simp [rowMatches, evalExpr, h1, h2]
    simp only [selectRows, hrow, ih, List.filter_cons]

/-- SQLite answers the login query for a quote-free pair with the rows equal to it. -/
theorem sqliteSelect_plain (store : List User) (u pw : String) (hu : '\'' ∉ u.data)
    (hu0 : '\x00' ∉ u.data) (hp : '\'' ∉ pw.data) (hp0 : '\x00' ∉ pw.data) :
    sqliteSelect store (loginQuery u pw) =
      .rows (store.filter fun x => decide (x.Username = u ∧ x.Password = pw)) := by
  have hparse : parseSelect [.word "SELECT", .word "USERNAME", .comma, .word "PASSWORD",
      .word "FROM", .word "USERS", .word "WHERE", .word "USERNAME", .eq, .str u, .word "AND",
      .word "PASSWORD", .eq, .str pw] =
      .ok (.and (.eq .username (.text u)) (.eq .password (.text pw))) := by
    simp [parseSelect, parseCondition, tokenOperand, joinOr, joinAnd]
  simp [sqliteSelect, sqlTokens_plain u pw hu hu0 hp hp0, hparse, selectRows_plain]

/-- The status that the template branch leaves is 200 or 500. -/
theorem render_branch_code (env : Env) (text : Bytes) (data : TemplateData) (name : String) :
    (match renderTemplate env newRecorder text data name with
      | (w2, true) => httpError w2 "Template Error" 500
      | (w2, false) => w2).Code ≠ 302 := by
  unfold renderTemplate
  by_cases hp : env.templateParse name text = true
  · simp only [hp, Bool.not_true, Bool.false_eq_true, if_false]
    generalize hw : (env.templateExecute name text data).1.foldl ResponseWriter.Write
      (newRecorder.mapHeader fun h => h.Set "Content-Type" "text/html; charset=utf-8") = w2
    have hcode : w2.Code = 200 := by
      rw [← hw]; exact (rendered_facts _).1
    cases hf : (env.templateExecute name text data).2 with
    | false =>
      simp only []
      rw [hcode]; decide
    | true =>
      simp only []
      by_cases hwrote : w2.wroteHeader = true
      · simp [httpError, ResponseWriter.mapHeader, ResponseWriter.WriteHeader,
          ResponseWriter.Write, hwrote, hcode]
      · simp [httpError, ResponseWriter.mapHeader, ResponseWriter.WriteHeader,
          ResponseWriter.Write, hwrote]
  · simp only [hp, Bool.not_false, if_true]
    simp [httpError, newRecorder, ResponseWriter.mapHeader, ResponseWriter.WriteHeader,
      ResponseWriter.Write]

/-- C14 (amended). For every submitted username and password that contain neither a
single quote nor a zero byte, the rows matched by the login query are exactly the
stored rows whose username and password equal the submitted ones (`rowScan`). So the
response
is the login redirect only when that exact pair is stored; when it is stored once,
the redirect carries the cookie of the submitted username (written as
`user=<username>; Path=/` when the username has only cookie-safe characters); and
a pair that is not stored, such as a stored username with another password, gets
the zero-match error page when the login template renders. -/
theorem plain_login_matches (env : Env) (db : Database) (store : List User) (r : Request)
    (u pw : String) (hm : r.Method = "POST") (hdb : createTempDatabase env = some db)
    (hsql : SqliteOver db store) (hfu : r.FormValue "username" = u)
    (hfp : r.FormValue "password" = pw)
    (hu : '\'' ∉ u.data) (hu0 : '\x00' ∉ u.data)
    (hp : '\'' ∉ pw.data) (hp0 : '\x00' ∉ pw.data) :
    db.QueryContext (loginQuery u pw) =
      some { scans := (rowScan store u pw).map some, err := false } ∧
    ((loginHandler env newRecorder r).Code = 302 →
      ({ Username := u, Password := pw } : User) ∈ store) ∧
    ((rowScan store u pw).length = 1 →
      (loginHandler env newRecorder r).Code = 302 ∧
      (loginHandler env newRecorder r).ResultHeader.Get "Location" = "/dashboard" ∧
      (loginHandler env newRecorder r).ResultHeader.Values "Set-Cookie"
        = [userCookieString u] ∧
      (cookieSafe u = true → userCookieString u = "user=" ++ u ++ "; Path=/")) ∧
    (({ Username := u, Password := pw } : User) ∉ store →
      Renders env "login" env.loginHTML
        (.login { Error := "ユーザー名またはパスワードが間違っています" }) →
      (loginHandler env newRecorder r).Code = 200 ∧
      (loginHandler env newRecorder r).Body =
        (env.templateExecute "login" env.loginHTML
          (.login { Error := "ユーザー名またはパスワードが間違っています" })).1.flatten ∧
      (loginHandler env newRecorder r).ResultHeader
        = [("Content-Type", "text/html; charset=utf-8")]) := by
  unfold rowScan
  have hq : db.QueryContext (loginQuery u pw) = some
      ⟨(store.filter fun x => decide (x.Username = u ∧ x.Password = pw)).map some, false⟩ := by
    have h1 := hsql (loginQuery u pw)
    rw [sqliteSelect_plain store u pw hu hu0 hp hp0] at h1
    exact h1
  have hq2 : db.QueryContext (loginQuery (r.FormValue "username") (r.FormValue "password"))
      = some
      ⟨(store.filter fun x => decide (x.Username = u ∧ x.Password = pw)).map some, false⟩ := by
    rw [hfu, hfp]; exact hq
  have hpost := loginHandler_post env db _ r hm hdb hq2 rfl
  have husers : ∀ l : List User, (l.map some).filterMap id = l := by intro l; simp
  simp only [husers] at hpost
  have hempty : (⟨u, pw⟩ : User) ∉ store →
      (store.filter fun x => decide (x.Username = u ∧ x.Password = pw)) = [] := by
    intro hnot
    rw [List.filter_eq_nil_iff]
    intro x hx hdec
    have hxe : x.Username = u ∧ x.Password = pw := by simpa using hdec
    apply hnot
    have : x = ⟨u, pw⟩ := by
      cases x; simp only [User.mk.injEq]; exact hxe
    rw [← this]; exact hx
  refine ⟨hq, ?_, ?_, ?_⟩
  · intro hcode
    by_contra hnot
    rw [hpost, hempty hnot] at hcode
    simp only [List.length_nil, if_true] at hcode
    exact render_branch_code env env.loginHTML (.login { Error := loginError }) "login" hcode
  · intro hone
    obtain ⟨x, hx⟩ := List.length_eq_one.mp hone
    have hmem : x ∈ store.filter fun x => decide (x.Username = u ∧ x.Password = pw) := by
      rw [hx]; simp
    have hxu : x.Username = u := by
      have := (List.mem_filter.mp hmem).2
      have h2 : x.Username = u ∧ x.Password = pw := by simpa using this
      exact h2.1
    have hw : loginHandler env newRecorder r =
        httpRedirect (httpSetUserCookie newRecorder u) r "/dashboard" 302 := by
      rw [hpost, hx]
      simp [hxu]
    obtain ⟨h1, h2, h3, _⟩ := login_redirect_facts r hm u
    rw [hw]
    refine ⟨h1, h2, h3, ?_⟩
    intro hs
    simp [userCookieString, sanitize_cookieSafe _ hs]
  · intro hnot ht
    have ht1 : Renders env "login" env.loginHTML (.login { Error := loginError }) := ht
    have hw : loginHandler env newRecorder r =
        (env.templateExecute "login" env.loginHTML
          (.login { Error := loginError })).1.foldl ResponseWriter.Write
          (newRecorder.mapHeader fun h => h.Set "Content-Type" "text/html; charset=utf-8") := by
      rw [hpost, hempty hnot, renderTemplate_renders env _ _ _ ht1]
      simp
    rw [hw]
    exact rendered_facts _

/-- C14 (amended) at the stored user name kanmu with the password wrong. -/
theorem plain_login_matches_witness :
    (loginHandler (sampleEnv (sqliteDatabase storedUsers)) newRecorder
      (loginPost "kanmu" "wrong")).Code = 200 ∧
    (loginHandler (sampleEnv (sqliteDatabase storedUsers)) newRecorder
      (loginPost "kanmu" "wrong")).Body = goBytes "login:" ++ goBytes loginError :=
  have h := (plain_login_matches (sampleEnv (sqliteDatabase storedUsers))
    (sqliteDatabase storedUsers) storedUsers (loginPost "kanmu" "wrong") "kanmu" "wrong"
    rfl rfl (by intro sql; simp only [sqliteDatabase]; split <;> simp_all) rfl rfl
    (by decide) (by decide) (by decide) (by decide)).2.2.2 (by decide) ⟨rfl, rfl⟩
  ⟨h.1, by rw [h.2.1]; decide⟩

/-- C14 as stated fails. The user name kanmu and the password x followed by a zero
byte contain no single quote and match no stored row; SQLite reads the query up to
the zero byte, finds an unterminated literal and rejects it: the response is the
500 page "Database Error", not the zero-match error page. And over a store with
the pair a;b / x, the login with that pair succeeds with the cookie user=ab. -/
theorem plain_login_counterexample :
    '\'' ∉ "kanmu".data ∧ '\'' ∉ "x\x00".data ∧
    rowScan storedUsers "kanmu" "x\x00" = [] ∧
    sqliteSelect storedUsers (loginQuery "kanmu" "x\x00") = .error ∧
    (loginHandler (sampleEnv (sqliteDatabase storedUsers)) newRecorder
      (loginPost "kanmu" "x\x00")).Code = 500 ∧
    (loginHandler (sampleEnv (sqliteDatabase storedUsers)) newRecorder
      (loginPost "kanmu" "x\x00")).Body = goBytes "Database Error\n" ∧
    (loginHandler (sampleEnv (sqliteDatabase [{ Username := "a;b", Password := "x" }]))
      newRecorder (loginPost "a;b" "x")).ResultHeader.Values "Set-Cookie"
        = ["user=ab; Path=/"] := by
  refine ⟨?_, ?_, ?_, ?_, ?_, ?_, ?_⟩ <;> decide

end Gocon2025CTF
